import Mathlib

/-!
Verification of harrisonturton/api: access and refresh token authentication.

A shallow embedding of `auth/auth.go`, `config/config.go` and the parts of the Go
runtime and of the libraries they call (`time`, `github.com/dgrijalva/jwt-go`,
`net/http`), followed by theorems about the embedded functions.

Conventions of the embedding.

* A clock reading (`time.Now()`) is a natural number of nanoseconds since the Unix
  epoch; every function that reads the clock takes the reading as its argument `now`,
  and one call reads the clock once.
* Go's `int` and `int64` are `Int`; the one arithmetic operation of the source that can
  leave the `int64` range, `time.Second * time.Duration(lifespan)`, wraps explicitly.
* An RSA key is a natural number naming its key pair: public key `k` verifies exactly
  the RS512 signatures made with private key `k` (an ideal signature scheme). RS512 is
  deterministic, so a payload and a key determine the signed token.
* A function returning `(T, error)` whose `T` is meaningless on error is an `Except`;
  one that returns both (`VerifyAccessToken`, `parseRefreshToken`) is a pair.
* A run-time panic is the value `GoError.panic`: a function that shows it has not
  returned, and each caller in the source shows it in turn, unwrapped. The one panic
  of the source is the nil `*jwt.StandardClaims` that both claims structures embed:
  a payload without registered claims leaves the pointer nil, and `jwt-go` calls
  `Claims.Valid()` through it before it checks the signature.
* Left out: the size of RSA keys, failure of the random source, and the diagnostic
  lines `Secure` prints to standard output.
-/

namespace time

/-- Two's complement wrap of an integer into the range of `int64`. -/
def wrapInt64 (x : Int) : Int :=
  (x + 9223372036854775808) % 18446744073709551616 - 9223372036854775808

/-- The constant `time.Second`: one second as a `time.Duration`, in nanoseconds. -/
def Second : Int := 1000000000

/-- The product `time.Second * time.Duration(n)`, an `int64` multiplication. -/
def Seconds (n : Int) : Int := wrapInt64 (Second * n)

/-- The method `Time.Add`: the instant `d` nanoseconds after the clock reading `t`. -/
def Add (t : Nat) (d : Int) : Int := (t : Int) + d

/-- The method `Time.Unix`: whole seconds since the epoch, rounded down. -/
def Unix (t : Int) : Int := t / 1000000000

end time

/-- A Go `error` value, as far as the source distinguishes errors: a
`*jwt.ValidationError` with its `Errors` bit field, any other error, or an error
wrapped with a message by `errors.Wrap`. The fourth value, `panic`, is no error value:
it stands for a run-time panic that unwinds the call that shows it. -/
inductive GoError where
  | validation (Errors : Nat)
  | other (msg : String)
  | wrap (cause : GoError) (msg : String)
  | panic (msg : String)
  deriving DecidableEq, Repr

deriving instance DecidableEq for Except

/-- The type assertion `err.(*jwt.ValidationError)`: the bit field when it holds. -/
def GoError.asValidationError : GoError → Option Nat
  | .validation e => some e
  | _ => none

namespace jwt

def ValidationErrorMalformed : Nat := 1
def ValidationErrorUnverifiable : Nat := 2
def ValidationErrorSignatureInvalid : Nat := 4
def ValidationErrorAudience : Nat := 8
def ValidationErrorExpired : Nat := 16
def ValidationErrorIssuedAt : Nat := 32
def ValidationErrorIssuer : Nat := 64
def ValidationErrorNotValidYet : Nat := 128
def ValidationErrorId : Nat := 256
def ValidationErrorClaimsInvalid : Nat := 512

/-- The time-valued fields of `jwt.StandardClaims`; `0` is Go's zero value, which the
library reads as "not set" (each field is `omitempty`). -/
structure StandardClaims where
  ExpiresAt : Int
  IssuedAt : Int
  NotBefore : Int
  deriving DecidableEq, Repr

/-- The third segment of a compact token: either the RS512 signature of the token's
own first two segments under the private key `key`, or any other text. -/
inductive Signature where
  | rs512 (key : Nat)
  | invalid (bytes : String)
  deriving DecidableEq, Repr

end jwt

/-- A Go string that is presented as a token, up to what the parser can observe:
either a text that is not a compact JWS with a JSON object as payload, or a JWS whose
payload carries at least one registered claim, with the payload fields `Username`,
`RefreshToken` and the time-valued registered claims (an absent field reads as its
zero value) and its signature segment, or a JWS whose payload carries no registered
claim at all (`bare`), such as the payload `{}`. -/
inductive TokenString where
  | text (s : String)
  | jws (Username : String) (RefreshToken : TokenString) (std : jwt.StandardClaims)
      (sig : jwt.Signature)
  | bare (Username : String) (RefreshToken : TokenString) (sig : jwt.Signature)
  deriving DecidableEq, Repr

namespace jwt

def verifyExp (exp now : Int) (required : Bool) : Bool :=
  if exp = 0 then !required else decide (now ≤ exp)

def verifyIat (iat now : Int) (required : Bool) : Bool :=
  if iat = 0 then !required else decide (now ≥ iat)

def verifyNbf (nbf now : Int) (required : Bool) : Bool :=
  if nbf = 0 then !required else decide (now ≥ nbf)

/-- The method `StandardClaims.Valid` at Unix time `now`: the bit field of the
validation error it builds (`0` when it returns `nil`). -/
def StandardClaims.Valid (c : StandardClaims) (now : Int) : Nat :=
  let vErr := 0
  let vErr := if verifyExp c.ExpiresAt now false = false then vErr ||| ValidationErrorExpired else vErr
  let vErr := if verifyIat c.IssuedAt now false = false then vErr ||| ValidationErrorIssuedAt else vErr
  let vErr := if verifyNbf c.NotBefore now false = false then vErr ||| ValidationErrorNotValidYet else vErr
  vErr

/-- The method `SigningMethodRSA.Verify` with the key the source's key function
returns: whether the signature segment verifies under `publicKey`. -/
def Verify (sig : Signature) (publicKey : Nat) : Bool :=
  match sig with
  | .rs512 key => decide (key = publicKey)
  | .invalid _ => false

/-- The decoded payload of a token, before it is narrowed to one of the two claims
structures of the source. -/
structure Payload where
  Username : String
  RefreshToken : TokenString
  std : StandardClaims
  deriving DecidableEq, Repr

/-- The payload a claims variable holds before anything is decoded into it. -/
def Payload.zero : Payload := ⟨"", .text "", ⟨0, 0, 0⟩⟩

/-- The message of the panic that a method call through a nil pointer raises. -/
def nilPointerDereference : String :=
  "runtime error: invalid memory address or nil pointer dereference"

/-- The function `jwt.ParseWithClaims` with a key function that returns `publicKey`,
at clock reading `now`, called as the source calls it, on a claims structure whose
embedded `*jwt.StandardClaims` is nil: the decoded payload and the error. Claims are
validated first, then the signature; the two results are or-ed into one bit field.
When the payload carries no registered claim the embedded pointer stays nil and the
validation of the claims panics, whatever the signature. -/
def ParseWithClaims (raw : TokenString) (publicKey : Nat) (now : Nat) :
    Payload × Option GoError :=
  match raw with
  | .text _ => (Payload.zero, some (.validation ValidationErrorMalformed))
  | .jws username refreshToken std sig =>
    let claims : Payload := ⟨username, refreshToken, std⟩
    let vErr := std.Valid (time.Unix now)
    let vErr := if Verify sig publicKey then vErr else vErr ||| ValidationErrorSignatureInvalid
    if vErr = 0 then (claims, none) else (claims, some (.validation vErr))
  | .bare username refreshToken _ =>
    (⟨username, refreshToken, ⟨0, 0, 0⟩⟩, some (.panic nilPointerDereference))

/-- The compact serialisation of a payload signed with `privateKey`. Every registered
claim is `omitempty`: when all of them are zero the payload carries none. -/
def encode (claims : Payload) (privateKey : Nat) : TokenString :=
  if claims.std.ExpiresAt = 0 ∧ claims.std.IssuedAt = 0 ∧ claims.std.NotBefore = 0 then
    .bare claims.Username claims.RefreshToken (.rs512 privateKey)
  else
    .jws claims.Username claims.RefreshToken claims.std (.rs512 privateKey)

/-- The calls `jwt.NewWithClaims(jwt.SigningMethodRS512, claims).SignedString(key)`:
the token for the payload, signed with `privateKey`. Signing with a loaded RSA key
does not fail. -/
def SignedString (claims : Payload) (privateKey : Nat) : Except GoError TokenString :=
  .ok (encode claims privateKey)

end jwt

namespace auth

open jwt

structure AccessTokenClaims where
  RefreshToken : TokenString
  std : StandardClaims
  deriving DecidableEq, Repr

structure RefreshTokenClaims where
  Username : String
  std : StandardClaims
  deriving DecidableEq, Repr

/-- What JSON decoding into an `AccessTokenClaims` keeps of a payload. -/
def AccessTokenClaims.decode (p : Payload) : AccessTokenClaims := ⟨p.RefreshToken, p.std⟩

/-- What JSON decoding into a `RefreshTokenClaims` keeps of a payload. -/
def RefreshTokenClaims.decode (p : Payload) : RefreshTokenClaims := ⟨p.Username, p.std⟩

structure Authenticator where
  publicKey : Nat
  privateKey : Nat
  refreshTokenLifespan : Int
  accessTokenLifespan : Int
  deriving DecidableEq, Repr

def Authenticator.NewRefreshToken (auth : Authenticator) (now : Nat) (username : String) :
    Except GoError TokenString :=
  SignedString
    ⟨username, .text "",
      ⟨time.Unix (time.Add now (time.Seconds auth.refreshTokenLifespan)), 0, 0⟩⟩
    auth.privateKey

def Authenticator.NewAccessToken (auth : Authenticator) (now : Nat) (refreshToken : TokenString) :
    Except GoError TokenString :=
  SignedString
    ⟨"", refreshToken,
      ⟨time.Unix (time.Add now (time.Seconds auth.accessTokenLifespan)), 0, 0⟩⟩
    auth.privateKey

/-- The method `parseAccessToken` at clock reading `now`. A panic of the library parse
unwinds through it. -/
def Authenticator.parseAccessToken (auth : Authenticator) (now : Nat) (rawAccessToken : TokenString) :
    Except GoError AccessTokenClaims :=
  let (claims, err) := ParseWithClaims rawAccessToken auth.publicKey now
  match err with
  | some (.panic msg) => .error (.panic msg)
  | some e =>
    if (match e.asValidationError with
        | none => true
        | some errors => errors &&& ValidationErrorExpired = 0)
    then .error (.wrap e "failed to validate access token")
    else .ok (AccessTokenClaims.decode claims)
  | none => .ok (AccessTokenClaims.decode claims)

/-- The method `VerifyAccessToken` at clock reading `now`; it panics when the library
parse does, which shows as the error component `GoError.panic`. -/
def Authenticator.VerifyAccessToken (auth : Authenticator) (now : Nat) (rawAccessToken : TokenString) :
    AccessTokenClaims × Option GoError :=
  let (claims, err) := ParseWithClaims rawAccessToken auth.publicKey now
  (AccessTokenClaims.decode claims, err)

/-- The method `parseRefreshToken` at clock reading `now`; it panics when the library
parse does, which shows as the error component `GoError.panic`. -/
def Authenticator.parseRefreshToken (auth : Authenticator) (now : Nat) (rawRefreshToken : TokenString) :
    RefreshTokenClaims × Option GoError :=
  let (claims, err) := ParseWithClaims rawRefreshToken auth.publicKey now
  (RefreshTokenClaims.decode claims, err)

/-- The method `RefreshAccessToken` at clock reading `now`. A panic of either parse
unwinds through it, unwrapped. -/
def Authenticator.RefreshAccessToken (auth : Authenticator) (now : Nat) (rawAccessToken : TokenString) :
    Except GoError TokenString :=
  match auth.parseAccessToken now rawAccessToken with
  | .error (.panic msg) => .error (.panic msg)
  | .error err => .error (.wrap err "failed to parse access token")
  | .ok accessTokenClaims =>
    match auth.parseRefreshToken now accessTokenClaims.RefreshToken with
    | (_, some (.panic msg)) => .error (.panic msg)
    | (_, some err) => .error (.wrap err "failed to parse refresh token")
    | (refreshTokenClaims, none) =>
      match auth.NewRefreshToken now refreshTokenClaims.Username with
      | .error err => .error (.wrap err "failed to create new refresh token")
      | .ok newRefreshToken => auth.NewAccessToken now newRefreshToken

end auth

namespace config

structure Server where
  Host : String
  Port : Int
  deriving DecidableEq, Repr

structure Auth where
  PublicKeyPath : String
  PrivateKeyPath : String
  RefreshTokenLifespan : Int
  AccessTokenLifespan : Int
  deriving DecidableEq, Repr

structure Database where
  Name : String
  Username : String
  Password : String
  deriving DecidableEq, Repr

structure APIs where
  SendGrid : String
  deriving DecidableEq, Repr

/-- The struct `Config`, whose four embedded structs promote their fields. -/
structure Config where
  toServer : Server
  toAuth : Auth
  toDatabase : Database
  toAPIs : APIs
  deriving DecidableEq, Repr

def DefaultConfig : Config :=
  ⟨⟨"localhost", 8080⟩,
    ⟨"rsa.app.pub", "rsa.app", 60 * 3, 30⟩,
    ⟨"--my-placeholder-database--", "--my-placeholder-username--",
      "--my-placeholder-password--"⟩,
    ⟨"--sendgrid--"⟩⟩

/-- The method `Config.ReadFromFile`: the configuration as the call leaves it, and the
error it returns. `ReadFile` stands for `ioutil.ReadFile` on the file system at hand
and `Unmarshal` for `yaml.Unmarshal`, which overwrites the fields the file names. -/
def Config.ReadFromFile (ReadFile : String → Except GoError String)
    (Unmarshal : String → Config → Config × Option GoError)
    (config : Config) (filepath : String) : Config × Option GoError :=
  match ReadFile filepath with
  | .error err => (config, some err)
  | .ok file =>
    let (config, err) := Unmarshal file config
    if config.toServer.Host = "" then
      (config, some (.other "server:host not specified in config"))
    else if config.toServer.Port = 0 then
      (config, some (.other "server:port not specified in config"))
    else if config.toAuth.PublicKeyPath = "" then
      (config, some (.other "authentication:publicKeyPath not specified in config"))
    else if config.toAuth.PrivateKeyPath = "" then
      (config, some (.other "authentication:privateKeyPath not specified in config"))
    else if config.toDatabase.Name = "" then
      (config, some (.other "database:name not specified in config"))
    else if config.toDatabase.Username = "" then
      (config, some (.other "database:username not specified in config"))
    else if config.toAPIs.SendGrid = "" then
      (config, some (.other "api_keys:sendgrid not specified in config"))
    else (config, err)

end config

namespace auth

/-- The function `NewAuthenticator`. `ReadFile` stands for `ioutil.ReadFile` and the
two parsers for `jwt.ParseRSAPublicKeyFromPEM` and `jwt.ParseRSAPrivateKeyFromPEM`. -/
def NewAuthenticator (ReadFile : String → Except GoError String)
    (ParseRSAPublicKeyFromPEM ParseRSAPrivateKeyFromPEM : String → Except GoError Nat)
    (config : config.Auth) : Except GoError Authenticator :=
  match ReadFile config.PublicKeyPath with
  | .error err => .error (.wrap err "failed to read public key file")
  | .ok rawPublicKey =>
    match ReadFile config.PrivateKeyPath with
    | .error err => .error (.wrap err "failed to read private key file")
    | .ok rawPrivateKey =>
      match ParseRSAPublicKeyFromPEM rawPublicKey with
      | .error err => .error (.wrap err "failed to parse RSA public key from PEM")
      | .ok publicKey =>
        match ParseRSAPrivateKeyFromPEM rawPrivateKey with
        | .error err => .error (.wrap err "failed to parse RSA private key from PEM")
        | .ok privateKey =>
          .ok ⟨publicKey, privateKey, config.RefreshTokenLifespan, config.AccessTokenLifespan⟩

end auth

namespace http

structure Request where
  Method : String
  Header : List (String × String)
  Body : String
  deriving DecidableEq, Repr

/-- What a handler has sent through its `http.ResponseWriter`: the header map, the
status code once the header has been written, and the body written so far. -/
structure ResponseWriter where
  Header : List (String × String)
  Status : Option Nat
  Body : String
  deriving DecidableEq, Repr

/-- The type `http.Handler`, by its method `ServeHTTP`. -/
abbrev Handler := ResponseWriter → Request → ResponseWriter

def StatusOK : Nat := 200
def StatusForbidden : Nat := 403

def StatusText (code : Nat) : String :=
  if code = 200 then "OK" else if code = 403 then "Forbidden" else ""

/-- The call `w.Header().Set(key, value)` for a key in canonical form. -/
def ResponseWriter.SetHeader (w : ResponseWriter) (key value : String) : ResponseWriter :=
  { w with Header := (key, value) :: w.Header.filter (fun kv => kv.1 ≠ key) }

/-- The method `WriteHeader`: the first call fixes the status, later calls do nothing. -/
def ResponseWriter.WriteHeader (w : ResponseWriter) (code : Nat) : ResponseWriter :=
  match w.Status with
  | some _ => w
  | none => { w with Status := some code }

/-- The method `Write`: writes the header with status 200 if it is not yet written. -/
def ResponseWriter.Write (w : ResponseWriter) (data : String) : ResponseWriter :=
  let w := w.WriteHeader StatusOK
  { w with Body := w.Body ++ data }

/-- The function `http.Error`. -/
def Error (w : ResponseWriter) (error : String) (code : Nat) : ResponseWriter :=
  let w := w.SetHeader "Content-Type" "text/plain; charset=utf-8"
  let w := w.SetHeader "X-Content-Type-Options" "nosniff"
  let w := w.WriteHeader code
  w.Write (error ++ "\n")

end http

namespace auth

/-- The method `Authenticator.Secure` at clock reading `now`: what the secured handler
has sent when it returns, or the panic that `VerifyAccessToken` raises, which leaves
the handler before anything is written. The two diagnostic lines printed to standard
output are left out. -/
def Authenticator.Secure (auth : Authenticator) (now : Nat)
    (extractor : http.Request → Except GoError TokenString) (next : http.Handler) :
    http.ResponseWriter → http.Request → Except GoError http.ResponseWriter :=
  fun w r =>
    match extractor r with
    | .error _ =>
      .ok (http.Error w (http.StatusText http.StatusForbidden) http.StatusForbidden)
    | .ok token =>
      match (auth.VerifyAccessToken now token).2 with
      | some (.panic msg) => .error (.panic msg)
      | some _ =>
        .ok (http.Error w (http.StatusText http.StatusForbidden) http.StatusForbidden)
      | none => .ok (next w r)

end auth

namespace bcrypt

def MinCost : Int := 4
def MaxCost : Int := 31
def DefaultCost : Int := 10

/-- A byte slice presented as a stored hash, up to what `newFromHash` can observe:
a well-formed encoding of a cost, a salt and a digest, or anything else. -/
inductive HashBytes where
  | encoded (cost : Int) (salt : List UInt8) (digest : List UInt8)
  | malformed (bytes : List UInt8)
  deriving DecidableEq, Repr

/-- The 72 key bytes that the Blowfish key schedule of `expensiveBlowfishSetup` reads:
the password followed by a zero byte, repeated cyclically. -/
def keyStream (password : List UInt8) : List UInt8 :=
  let ckey := password ++ [0]
  (List.range 72).map (fun j => ckey.getD (j % ckey.length) 0)

/-- The function `bcrypt(password, cost, salt)`. The Blowfish computation on the key
schedule is the parameter `cipher`. -/
def digest (cipher : Int → List UInt8 → List UInt8 → List UInt8)
    (password : List UInt8) (cost : Int) (salt : List UInt8) : List UInt8 :=
  cipher cost salt (keyStream password)

/-- The function `bcrypt.GenerateFromPassword`, with the salt read from the random
source as its argument `salt`. Library versions since 2022 reject a password of more
than 72 bytes; `rejectLong` tells whether the version at hand does. -/
def GenerateFromPassword (cipher : Int → List UInt8 → List UInt8 → List UInt8)
    (rejectLong : Bool) (salt : List UInt8) (password : List UInt8) (cost : Int) :
    Except GoError HashBytes :=
  if rejectLong && decide (password.length > 72) then
    .error (.other "bcrypt: password length exceeds 72 bytes")
  else
    let cost := if cost < MinCost then DefaultCost else cost
    if cost > MaxCost then .error (.other "crypto/bcrypt: cost is outside allowed range")
    else .ok (.encoded cost salt (digest cipher password cost salt))

/-- The function `bcrypt.CompareHashAndPassword`: `none` is a `nil` error. -/
def CompareHashAndPassword (cipher : Int → List UInt8 → List UInt8 → List UInt8)
    (hashedPassword : HashBytes) (password : List UInt8) : Option GoError :=
  match hashedPassword with
  | .malformed _ => some (.other "crypto/bcrypt: hashedSecret is not a bcrypt hash")
  | .encoded cost salt hash =>
    if digest cipher password cost salt = hash then none
    else some (.other "crypto/bcrypt: hashedPassword is not the hash of the given password")

end bcrypt

namespace auth

def HashPassword (cipher : Int → List UInt8 → List UInt8 → List UInt8)
    (rejectLong : Bool) (salt : List UInt8) (password : List UInt8) :
    Except GoError bcrypt.HashBytes :=
  bcrypt.GenerateFromPassword cipher rejectLong salt password 14

def CheckPasswordHash (cipher : Int → List UInt8 → List UInt8 → List UInt8)
    (password : List UInt8) (hash : bcrypt.HashBytes) : Bool :=
  let err := bcrypt.CompareHashAndPassword cipher hash password
  err == none

end auth

namespace http

def MethodOptions : String := "OPTIONS"

/-- The call `w.Header().Get(key)` for a key in canonical form: the value set for the
key, or the empty string when the header map has no such key. -/
def ResponseWriter.GetHeader (w : ResponseWriter) (key : String) : String :=
  match w.Header.find? (fun kv => kv.1 = key) with
  | some kv => kv.2
  | none => ""

end http

namespace server

/-- The type `Middleware`. -/
abbrev Middleware := http.Handler → http.Handler

structure CorsConfig where
  AllowOrigin : String
  AllowHeaders : String
  AllowMethods : String
  MaxAge : Int
  deriving DecidableEq, Repr

def SetPreflightHeaders (config : CorsConfig) : Middleware :=
  fun h w r =>
    let w := w.SetHeader "Access-Control-Allow-Origin" config.AllowOrigin
    let w := w.SetHeader "Access-Control-Allow-Headers" config.AllowHeaders
    if r.Method = http.MethodOptions then
      w.WriteHeader http.StatusOK
    else
      h w r

def SetHeader (key value : String) : Middleware :=
  fun h w r =>
    let w := w.SetHeader key value
    let w := w.SetHeader "Content-Type" "application/json; charset=utf-8"
    h w r

end server

open auth jwt

/-! ## A worked scenario

The scenario of the specification: access lifespan 30 s, refresh lifespan 180 s, a
token pair issued for "alice", here at second 1000. -/

namespace scenario

def authenticator : Authenticator := ⟨7, 7, 180, 30⟩

def t0 : Nat := 1000000000000

def refreshToken : TokenString := .jws "alice" (.text "") ⟨1180, 0, 0⟩ (.rs512 7)

def accessToken : TokenString := .jws "" refreshToken ⟨1030, 0, 0⟩ (.rs512 7)

/-- The same authenticator with an access lifespan of 9223372037 s, the least number
of seconds that no `time.Duration` holds. -/
def longAuthenticator : Authenticator := ⟨7, 7, 180, 9223372037⟩

def longAccessToken : TokenString := .jws "" refreshToken ⟨-9223371037, 0, 0⟩ (.rs512 7)

/-- A loaded configuration that names everything but the two lifespans. -/
def zeroLifespans : config.Config :=
  ⟨⟨"localhost", 8080⟩, ⟨"rsa.app.pub", "rsa.app", 0, 0⟩, ⟨"api", "api", "secret"⟩,
    ⟨"SG.key"⟩⟩

/-- A loaded configuration whose public key path is empty. -/
def noPublicKeyPath : config.Config :=
  ⟨⟨"localhost", 8080⟩, ⟨"", "rsa.app", 180, 30⟩, ⟨"api", "api", "secret"⟩, ⟨"SG.key"⟩⟩

/-- A file system in which every file with a nonempty name exists and holds its own
name. -/
def ReadFile (path : String) : Except GoError String :=
  if path = "" then .error (.other "open : no such file or directory") else .ok path

/-- A YAML decoder that knows two files. -/
def Unmarshal (file : String) (cfg : config.Config) : config.Config × Option GoError :=
  if file = "zero-lifespans.yml" then (zeroLifespans, none)
  else if file = "no-public-key-path.yml" then (noPublicKeyPath, none)
  else (cfg, none)

/-- A PEM parser for which every file holds key 7. -/
def ParsePEM (_raw : String) : Except GoError Nat := .ok 7

/-- A password of 72 bytes. -/
def longPassword : List UInt8 := List.replicate 72 97

/-- The password "hunter2". -/
def password : List UInt8 := [104, 117, 110, 116, 101, 114, 50]

/-- The authenticator of the scenario with an access lifespan of -1000 s, as a
configuration file may set it: at second 1000 the expiry it computes is 0. -/
def misconfigured : Authenticator := ⟨7, 7, 180, -1000⟩

/-- The access token that `misconfigured` issues at second 1000 around the refresh
token of the scenario: correctly signed, with no registered claim in its payload. -/
def bareAccessToken : TokenString := .bare "" refreshToken (.rs512 7)

/-- The compact token `eyJhbGciOiJSUzUxMiJ9.e30.AAAA`: header `alg: RS512`, payload `{}`
and a third segment that is no signature. -/
def emptyPayloadToken : TokenString := .bare "" (.text "") (.invalid "AAAA")

/-- A stand-in for the Blowfish computation: the key bytes themselves. -/
def cipher (_cost : Int) (_salt : List UInt8) (key : List UInt8) : List UInt8 := key

/-- The CORS configuration named in the comment on `SetPreflightHeaders`. -/
def cors : server.CorsConfig :=
  ⟨"*", "content-type, Content-Type, Origin, Authorization", "GET, POST, OPTIONS", 600⟩

/-- The handler of `TestPreflightHeaders`, which writes a greeting. -/
def hello : http.Handler := fun w _ => w.Write "Hello World"

/-- A response writer through which nothing has been sent yet. -/
def recorder : http.ResponseWriter := ⟨[], none, ""⟩

end scenario

/-! ## Clock arithmetic -/

theorem Seconds_inRange (n : Int) (h1 : -9223372036 ≤ n) (h2 : n ≤ 9223372036) :
    time.Seconds n = 1000000000 * n := by
  unfold time.Seconds time.wrapInt64 time.Second
  omega

theorem Unix_Add_Seconds (t : Nat) (n : Int) (h1 : -9223372036 ≤ n) (h2 : n ≤ 9223372036) :
    time.Unix (time.Add t (time.Seconds n)) = time.Unix t + n := by
  rw [Seconds_inRange n h1 h2]
  unfold time.Unix time.Add
  omega

/-! ## Tolerant parsing -/

/-- What `parseAccessToken` does with the outcome of the library parse: it returns the
claims exactly when there is no error or the error is a validation error whose bit
field has the expiry bit set, whatever other bits are set with it. -/
theorem parseAccessToken_ok_iff (auth : Authenticator) (now : Nat) (raw : TokenString) :
    auth.parseAccessToken now raw
        = .ok (AccessTokenClaims.decode (ParseWithClaims raw auth.publicKey now).1) ↔
      ((ParseWithClaims raw auth.publicKey now).2 = none ∨
        ∃ e, (ParseWithClaims raw auth.publicKey now).2 = some (.validation e) ∧
          e &&& ValidationErrorExpired ≠ 0) := by
  unfold Authenticator.parseAccessToken
  rcases h : ParseWithClaims raw auth.publicKey now with ⟨claims, err⟩
  cases err with
  | none => simp
  | some e =>
    cases e with
    | validation bits =>
      by_cases hb : bits &&& ValidationErrorExpired = 0 <;>
        simp [GoError.asValidationError, hb]
    | other msg => simp [GoError.asValidationError]
    | wrap c msg => simp [GoError.asValidationError]
    | panic msg => simp

/-- C1 (evaluation at the failing input). An access token that expired at second 100,
whose signature segment is not a signature, is parsed at second 200: the library
reports the failure set (expired, signature invalid), bit field 20, and
`parseAccessToken` returns the claims of the forged token with no error, where the
claim requires an error for every failure set that holds a failure other than expiry. -/
theorem parseAccessToken_accepts_expired_forgery :
    (ParseWithClaims (.jws "" (.text "anything") ⟨100, 0, 0⟩ (.invalid "AAAA")) 7 200000000000).2
        = some (.validation (ValidationErrorExpired ||| ValidationErrorSignatureInvalid)) ∧
      (Authenticator.mk 7 7 180 30).parseAccessToken 200000000000
          (.jws "" (.text "anything") ⟨100, 0, 0⟩ (.invalid "AAAA"))
        = .ok ⟨.text "anything", ⟨100, 0, 0⟩⟩ := by
  decide

/-- The outcome of `parseAccessToken` is the decoded claims of the library parse, an
error it returns wrapped as "failed to validate access token", or a panic of the
library parse. -/
theorem parseAccessToken_cases (auth : Authenticator) (now : Nat) (raw : TokenString) :
    auth.parseAccessToken now raw
        = .ok (AccessTokenClaims.decode (ParseWithClaims raw auth.publicKey now).1) ∨
      (∃ e, (ParseWithClaims raw auth.publicKey now).2 = some e ∧
        auth.parseAccessToken now raw = .error (.wrap e "failed to validate access token")) ∨
      ∃ msg, (ParseWithClaims raw auth.publicKey now).2 = some (.panic msg) ∧
        auth.parseAccessToken now raw = .error (.panic msg) := by
  unfold Authenticator.parseAccessToken
  rcases ParseWithClaims raw auth.publicKey now with ⟨claims, err⟩
  cases err with
  | none => simp
  | some e =>
    cases e with
    | validation bits =>
      by_cases hb : bits &&& ValidationErrorExpired = 0 <;>
        simp [GoError.asValidationError, hb]
    | other msg => simp [GoError.asValidationError]
    | wrap c msg => simp [GoError.asValidationError]
    | panic msg => simp

/-! ## Parsing issued tokens -/

theorem ParseWithClaims_issued (u : String) (r : TokenString) (e : Int) (k pub now : Nat) :
    ParseWithClaims (.jws u r ⟨e, 0, 0⟩ (.rs512 k)) pub now =
      (⟨u, r, ⟨e, 0, 0⟩⟩,
        if k = pub then
          (if e ≠ 0 ∧ e < time.Unix now then some (.validation ValidationErrorExpired) else none)
        else
          (if e ≠ 0 ∧ e < time.Unix now then
            some (.validation (ValidationErrorExpired ||| ValidationErrorSignatureInvalid))
          else some (.validation ValidationErrorSignatureInvalid))) := by
  by_cases hk : k = pub <;> by_cases h0 : e = 0 <;> by_cases hlt : e < time.Unix now <;>
    simp [ParseWithClaims, StandardClaims.Valid, verifyExp, verifyIat, verifyNbf, Verify,
      ValidationErrorExpired, ValidationErrorIssuedAt, ValidationErrorNotValidYet,
      ValidationErrorSignatureInvalid, hk, h0, hlt]

theorem ParseWithClaims_jws_fst (u : String) (r : TokenString) (std : StandardClaims)
    (sig : Signature) (pub now : Nat) :
    (ParseWithClaims (.jws u r std sig) pub now).1 = ⟨u, r, std⟩ := by
  unfold ParseWithClaims
  simp only
  split <;> split <;> rfl

/-- The library parse of a token that carries registered claims returns, with no error
or with a validation error; it does not panic. -/
theorem ParseWithClaims_jws_snd (u : String) (r : TokenString) (std : StandardClaims)
    (sig : Signature) (pub now : Nat) :
    (ParseWithClaims (.jws u r std sig) pub now).2 = none ∨
      ∃ e, (ParseWithClaims (.jws u r std sig) pub now).2 = some (.validation e) := by
  unfold ParseWithClaims
  simp only
  split <;> split <;> simp

theorem VerifyAccessToken_jws_fst (auth : Authenticator) (now : Nat) (u : String)
    (r : TokenString) (std : StandardClaims) (sig : Signature) :
    (auth.VerifyAccessToken now (.jws u r std sig)).1 = ⟨r, std⟩ := by
  unfold Authenticator.VerifyAccessToken
  simp only [ParseWithClaims_jws_fst, AccessTokenClaims.decode]

theorem parseRefreshToken_jws_fst (auth : Authenticator) (now : Nat) (u : String)
    (r : TokenString) (std : StandardClaims) (sig : Signature) :
    (auth.parseRefreshToken now (.jws u r std sig)).1 = ⟨u, std⟩ := by
  unfold Authenticator.parseRefreshToken
  simp only [ParseWithClaims_jws_fst, RefreshTokenClaims.decode]

theorem VerifyAccessToken_snd (auth : Authenticator) (now : Nat) (raw : TokenString) :
    (auth.VerifyAccessToken now raw).2 = (ParseWithClaims raw auth.publicKey now).2 := rfl

theorem parseRefreshToken_snd (auth : Authenticator) (now : Nat) (raw : TokenString) :
    (auth.parseRefreshToken now raw).2 = (ParseWithClaims raw auth.publicKey now).2 := rfl

/-- A payload with a nonzero `ExpiresAt` is serialised with its registered claims. -/
theorem encode_of_ne_zero (u : String) (r : TokenString) (e : Int) (k : Nat) (h : e ≠ 0) :
    encode ⟨u, r, ⟨e, 0, 0⟩⟩ k = .jws u r ⟨e, 0, 0⟩ (.rs512 k) := by
  unfold encode
  simp [h]

/-- Decoding gives back the payload that was serialised, with or without registered
claims. -/
theorem ParseWithClaims_encode_fst (c : Payload) (k pub now : Nat) :
    (ParseWithClaims (encode c k) pub now).1 = c := by
  unfold encode
  split
  · rename_i h
    obtain ⟨u, r, ⟨e, i, n⟩⟩ := c
    simp only at h
    obtain ⟨h1, h2, h3⟩ := h
    subst h1; subst h2; subst h3
    rfl
  · rw [ParseWithClaims_jws_fst]

theorem VerifyAccessToken_encode_fst (auth : Authenticator) (now : Nat) (c : Payload)
    (k : Nat) :
    (auth.VerifyAccessToken now (encode c k)).1 = ⟨c.RefreshToken, c.std⟩ := by
  unfold Authenticator.VerifyAccessToken
  simp only [ParseWithClaims_encode_fst, AccessTokenClaims.decode]

theorem parseRefreshToken_encode_fst (auth : Authenticator) (now : Nat) (c : Payload)
    (k : Nat) :
    (auth.parseRefreshToken now (encode c k)).1 = ⟨c.Username, c.std⟩ := by
  unfold Authenticator.parseRefreshToken
  simp only [ParseWithClaims_encode_fst, RefreshTokenClaims.decode]

/-- A serialised payload without registered claims makes the library parse panic. -/
theorem ParseWithClaims_encode_zero (u : String) (r : TokenString) (k pub now : Nat) :
    (ParseWithClaims (encode ⟨u, r, ⟨0, 0, 0⟩⟩ k) pub now).2
      = some (.panic nilPointerDereference) := rfl

/-- The refresh token `NewRefreshToken` issues at `now` for `username`. -/
theorem NewRefreshToken_eq (auth : Authenticator) (now : Nat) (username : String) :
    auth.NewRefreshToken now username
      = .ok (encode ⟨username, .text "",
          ⟨time.Unix (time.Add now (time.Seconds auth.refreshTokenLifespan)), 0, 0⟩⟩
          auth.privateKey) := rfl

theorem NewAccessToken_eq (auth : Authenticator) (now : Nat) (refreshToken : TokenString) :
    auth.NewAccessToken now refreshToken
      = .ok (encode ⟨"", refreshToken,
          ⟨time.Unix (time.Add now (time.Seconds auth.accessTokenLifespan)), 0, 0⟩⟩
          auth.privateKey) := rfl

/-- The tolerant parse passes when the strict one reports nothing, or a failure set
that holds expiry. -/
theorem parseAccessToken_tolerant (auth : Authenticator) (now : Nat) (raw : TokenString)
    (h : (auth.VerifyAccessToken now raw).2 = none ∨
      ∃ e, (auth.VerifyAccessToken now raw).2 = some (.validation e) ∧
        e &&& ValidationErrorExpired ≠ 0) :
    auth.parseAccessToken now raw = .ok (auth.VerifyAccessToken now raw).1 :=
  (parseAccessToken_ok_iff auth now raw).2 h

/-- When the tolerant parse of the access token and the strict parse of the embedded
refresh token both pass, `RefreshAccessToken` returns a new access token around a new
refresh token for the recovered username. -/
theorem RefreshAccessToken_ok (auth : Authenticator) (now : Nat) (raw : TokenString)
    (hacc : auth.parseAccessToken now raw = .ok (auth.VerifyAccessToken now raw).1)
    (href : (auth.parseRefreshToken now (auth.VerifyAccessToken now raw).1.RefreshToken).2
      = none) :
    auth.RefreshAccessToken now raw
      = .ok (encode ⟨"",
          encode ⟨(auth.parseRefreshToken now
                  (auth.VerifyAccessToken now raw).1.RefreshToken).1.Username,
              .text "",
              ⟨time.Unix (time.Add now (time.Seconds auth.refreshTokenLifespan)), 0, 0⟩⟩
            auth.privateKey,
          ⟨time.Unix (time.Add now (time.Seconds auth.accessTokenLifespan)), 0, 0⟩⟩
          auth.privateKey) := by
  unfold Authenticator.RefreshAccessToken
  rw [hacc]
  rcases hp : auth.parseRefreshToken now (auth.VerifyAccessToken now raw).1.RefreshToken
    with ⟨rc, rerr⟩
  rw [hp] at href
  simp only at href
  subst href
  dsimp only
  rw [hp]
  rfl

/-- When the tolerant parse of the access token passes and the strict parse of the
embedded refresh token returns a validation error, `RefreshAccessToken` returns that
error wrapped as "failed to parse refresh token". -/
theorem RefreshAccessToken_refresh_denied (auth : Authenticator) (now : Nat)
    (raw : TokenString) (e : Nat)
    (hacc : auth.parseAccessToken now raw = .ok (auth.VerifyAccessToken now raw).1)
    (href : (auth.parseRefreshToken now (auth.VerifyAccessToken now raw).1.RefreshToken).2
      = some (.validation e)) :
    auth.RefreshAccessToken now raw
      = .error (.wrap (.validation e) "failed to parse refresh token") := by
  unfold Authenticator.RefreshAccessToken
  rw [hacc]
  rcases hp : auth.parseRefreshToken now (auth.VerifyAccessToken now raw).1.RefreshToken
    with ⟨rc, rerr⟩
  rw [hp] at href
  simp only at href
  subst href
  dsimp only
  rw [hp]

/-- When the tolerant parse of the access token returns an error, `RefreshAccessToken`
returns it wrapped as "failed to parse access token". -/
theorem RefreshAccessToken_access_rejected (auth : Authenticator) (now : Nat)
    (raw : TokenString) (e : GoError)
    (hacc : auth.parseAccessToken now raw
      = .error (.wrap e "failed to validate access token")) :
    auth.RefreshAccessToken now raw
      = .error (.wrap (.wrap e "failed to validate access token")
          "failed to parse access token") := by
  unfold Authenticator.RefreshAccessToken
  rw [hacc]

/-- If `RefreshAccessToken` succeeds, its result is a new access token around a new
refresh token for the username of the presented refresh token, both stamped at `now`. -/
theorem RefreshAccessToken_ok_inv (auth : Authenticator) (now : Nat) (raw a' : TokenString)
    (h : auth.RefreshAccessToken now raw = .ok a') :
    a' = encode ⟨"",
          encode ⟨(auth.parseRefreshToken now
                  (auth.VerifyAccessToken now raw).1.RefreshToken).1.Username,
              .text "",
              ⟨time.Unix (time.Add now (time.Seconds auth.refreshTokenLifespan)), 0, 0⟩⟩
            auth.privateKey,
          ⟨time.Unix (time.Add now (time.Seconds auth.accessTokenLifespan)), 0, 0⟩⟩
          auth.privateKey
      ∧ auth.parseAccessToken now raw = .ok (auth.VerifyAccessToken now raw).1
      ∧ (auth.parseRefreshToken now (auth.VerifyAccessToken now raw).1.RefreshToken).2
          = none := by
  have hdec : AccessTokenClaims.decode (ParseWithClaims raw auth.publicKey now).1
      = (auth.VerifyAccessToken now raw).1 := rfl
  rcases parseAccessToken_cases auth now raw with hok | ⟨e, _, herr⟩ | ⟨msg, _, herr⟩
  · rw [hdec] at hok
    rcases hp : auth.parseRefreshToken now (auth.VerifyAccessToken now raw).1.RefreshToken
      with ⟨rc, rerr⟩
    cases rerr with
    | some e =>
      exfalso
      unfold Authenticator.RefreshAccessToken at h
      rw [hok] at h
      dsimp only at h
      rw [hp] at h
      cases e <;> simp at h
    | none =>
      have href : (auth.parseRefreshToken now
          (auth.VerifyAccessToken now raw).1.RefreshToken).2 = none := by rw [hp]
      have h2 := RefreshAccessToken_ok auth now raw hok href
      rw [h2] at h
      injection h with h
      rw [hp] at h
      exact ⟨h.symm, hok, rfl⟩
  · exfalso
    unfold Authenticator.RefreshAccessToken at h
    rw [herr] at h
    simp at h
  · exfalso
    unfold Authenticator.RefreshAccessToken at h
    rw [herr] at h
    simp at h

theorem encode_eq_jws (u u' : String) (r r' : TokenString) (e : Int) (k : Nat)
    (std : StandardClaims) (sig : Signature)
    (h : encode ⟨u, r, ⟨e, 0, 0⟩⟩ k = .jws u' r' std sig) : std.ExpiresAt = e := by
  unfold encode at h
  split at h
  · cases h
  · injection h with _ _ h _
    rw [← h]

/-! ## Refresh -/

/-- C2 (counterexample). With the positive access lifespan 9223372037 s the product
`time.Second * time.Duration(lifespan)` leaves the `int64` range, the access token is
issued already expired, and a refresh in the very instant of issuance succeeds with a
refresh token equal to the original one: the rotation the claim states for every pair
of positive lifespans fails. -/
theorem rotation_fails_for_overflowing_access_lifespan :
    0 < scenario.longAuthenticator.accessTokenLifespan ∧
      0 < scenario.longAuthenticator.refreshTokenLifespan ∧
      scenario.longAuthenticator.NewRefreshToken scenario.t0 "alice"
        = .ok scenario.refreshToken ∧
      scenario.longAuthenticator.NewAccessToken scenario.t0 scenario.refreshToken
        = .ok scenario.longAccessToken ∧
      (scenario.longAuthenticator.VerifyAccessToken scenario.t0 scenario.longAccessToken).2
        = some (.validation ValidationErrorExpired) ∧
      (scenario.longAuthenticator.parseRefreshToken scenario.t0 scenario.refreshToken).2
        = none ∧
      ¬ ∃ a', scenario.longAuthenticator.RefreshAccessToken scenario.t0
            scenario.longAccessToken = .ok a' ∧
          (scenario.longAuthenticator.parseRefreshToken scenario.t0
              (scenario.longAuthenticator.VerifyAccessToken scenario.t0 a').1.RefreshToken).1.Username
            = (scenario.longAuthenticator.parseRefreshToken scenario.t0
                scenario.refreshToken).1.Username ∧
          (scenario.longAuthenticator.VerifyAccessToken scenario.t0 a').1.RefreshToken
            ≠ (scenario.longAuthenticator.VerifyAccessToken scenario.t0
                scenario.longAccessToken).1.RefreshToken := by
  refine ⟨by decide, by decide, by decide, by decide, by decide, by decide, ?_⟩
  rintro ⟨a', h1, _, h3⟩
  have h : scenario.longAuthenticator.RefreshAccessToken scenario.t0 scenario.longAccessToken
      = .ok scenario.longAccessToken := by decide
  rw [h] at h1
  injection h1 with h1
  subst h1
  exact h3 rfl

/-- C2 (amended). A refresh token is issued for `username` at `tr` and embedded in an
access token issued at `ta`, not before `tr`, by an authenticator whose access
lifespan is positive and at most 9223372036 s. If at `now` the access token fails
strict verification with expiry alone and the refresh token still passes, then
`RefreshAccessToken` at `now` succeeds, and the refresh token embedded in the returned
access token carries the same username and is a different string. -/
theorem RefreshAccessToken_rotates_issued_pair (auth : Authenticator) (username : String)
    (tr ta now : Nat) (r a : TokenString)
    (hpos : 0 < auth.accessTokenLifespan) (hmax : auth.accessTokenLifespan ≤ 9223372036)
    (horder : tr ≤ ta)
    (hr : auth.NewRefreshToken tr username = .ok r)
    (ha : auth.NewAccessToken ta r = .ok a)
    (hexp : (auth.VerifyAccessToken now a).2 = some (.validation ValidationErrorExpired))
    (hvalid : (auth.parseRefreshToken now r).2 = none) :
    ∃ a', auth.RefreshAccessToken now a = .ok a' ∧
      (auth.parseRefreshToken now (auth.VerifyAccessToken now a').1.RefreshToken).1.Username
        = (auth.parseRefreshToken now r).1.Username ∧
      (auth.VerifyAccessToken now a').1.RefreshToken
        ≠ (auth.VerifyAccessToken now a).1.RefreshToken := by
  rw [NewRefreshToken_eq] at hr
  rw [NewAccessToken_eq] at ha
  injection hr with hr
  injection ha with ha
  subst hr
  subst ha
  -- both tokens carry their expiry: a token without it makes the parse panic
  have hEr : time.Unix (time.Add tr (time.Seconds auth.refreshTokenLifespan)) ≠ 0 := by
    intro h0
    rw [h0] at hvalid
    have hp := ParseWithClaims_encode_zero username (.text "") auth.privateKey
      auth.publicKey now
    rw [parseRefreshToken_snd, hp] at hvalid
    cases hvalid
  have hEa : time.Unix (time.Add ta (time.Seconds auth.accessTokenLifespan)) ≠ 0 := by
    intro h0
    rw [h0] at hexp
    have hp := ParseWithClaims_encode_zero ""
      (encode ⟨username, .text "",
        ⟨time.Unix (time.Add tr (time.Seconds auth.refreshTokenLifespan)), 0, 0⟩⟩
        auth.privateKey) auth.privateKey auth.publicKey now
    rw [VerifyAccessToken_snd, hp] at hexp
    cases hexp
  have hemb := VerifyAccessToken_encode_fst auth now
    ⟨"", encode ⟨username, .text "",
        ⟨time.Unix (time.Add tr (time.Seconds auth.refreshTokenLifespan)), 0, 0⟩⟩
        auth.privateKey,
      ⟨time.Unix (time.Add ta (time.Seconds auth.accessTokenLifespan)), 0, 0⟩⟩
    auth.privateKey
  have hacc := parseAccessToken_tolerant auth now _
    (Or.inr ⟨ValidationErrorExpired, hexp, by decide⟩)
  have href := hvalid
  rw [show encode ⟨username, .text "",
        ⟨time.Unix (time.Add tr (time.Seconds auth.refreshTokenLifespan)), 0, 0⟩⟩
        auth.privateKey
      = (auth.VerifyAccessToken now (encode ⟨"", encode ⟨username, .text "",
          ⟨time.Unix (time.Add tr (time.Seconds auth.refreshTokenLifespan)), 0, 0⟩⟩
          auth.privateKey,
        ⟨time.Unix (time.Add ta (time.Seconds auth.accessTokenLifespan)), 0, 0⟩⟩
        auth.privateKey)).1.RefreshToken from by rw [hemb]] at href
  refine ⟨_, RefreshAccessToken_ok auth now _ hacc href, ?_, ?_⟩
  · simp only [VerifyAccessToken_encode_fst, parseRefreshToken_encode_fst]
  · rw [VerifyAccessToken_encode_fst, hemb]
    simp only
    -- the access token is expired, so more than a second lies between `tr` and `now`
    have hx : time.Unix (time.Add ta (time.Seconds auth.accessTokenLifespan))
        < time.Unix now := by
      have h := hexp
      rw [encode_of_ne_zero _ _ _ _ hEa] at h
      unfold Authenticator.VerifyAccessToken at h
      rw [ParseWithClaims_issued] at h
      simp only at h
      split_ifs at h with h1 h2 h3
      · exact h2.2
      · simp [ValidationErrorExpired, ValidationErrorSignatureInvalid] at h
      · simp [ValidationErrorExpired, ValidationErrorSignatureInvalid] at h
    rw [Unix_Add_Seconds ta _ (by omega) hmax] at hx
    intro hne
    rw [encode_of_ne_zero _ _ _ _ hEr] at hne
    have hE := encode_eq_jws _ _ _ _ _ _ _ _ hne
    simp only at hE
    generalize time.Seconds auth.refreshTokenLifespan = d at hE
    simp only [time.Unix, time.Add] at hE hx
    omega

/-- C2 (witness). The scenario, 35 s after the pair was issued. -/
theorem RefreshAccessToken_rotates_issued_pair_witness :
    (0 < scenario.authenticator.accessTokenLifespan ∧
        scenario.authenticator.accessTokenLifespan ≤ 9223372036 ∧ scenario.t0 ≤ scenario.t0 ∧
        scenario.authenticator.NewRefreshToken scenario.t0 "alice" = .ok scenario.refreshToken ∧
        scenario.authenticator.NewAccessToken scenario.t0 scenario.refreshToken
          = .ok scenario.accessToken ∧
        (scenario.authenticator.VerifyAccessToken 1035000000000 scenario.accessToken).2
          = some (.validation ValidationErrorExpired) ∧
        (scenario.authenticator.parseRefreshToken 1035000000000 scenario.refreshToken).2
          = none) ∧
      ∃ a', scenario.authenticator.RefreshAccessToken 1035000000000 scenario.accessToken
            = .ok a' ∧
          (scenario.authenticator.parseRefreshToken 1035000000000
              (scenario.authenticator.VerifyAccessToken 1035000000000 a').1.RefreshToken).1.Username
            = (scenario.authenticator.parseRefreshToken 1035000000000
                scenario.refreshToken).1.Username ∧
          (scenario.authenticator.VerifyAccessToken 1035000000000 a').1.RefreshToken
            ≠ (scenario.authenticator.VerifyAccessToken 1035000000000
                scenario.accessToken).1.RefreshToken :=
  ⟨by decide,
    RefreshAccessToken_rotates_issued_pair scenario.authenticator "alice" scenario.t0
      scenario.t0 1035000000000 scenario.refreshToken scenario.accessToken
      (by decide) (by decide) (by decide) (by decide) (by decide) (by decide) (by decide)⟩


/-- An access token that carries registered claims and embeds a refresh token whose
strict parse returns a validation error is refused with a returned, wrapped error. -/
theorem RefreshAccessToken_error_of_jws (auth : Authenticator) (now : Nat) (u : String)
    (refreshToken : TokenString) (stdA : StandardClaims) (sigA : Signature) (e : Nat)
    (href : (ParseWithClaims refreshToken auth.publicKey now).2 = some (.validation e)) :
    ∃ err msg, auth.RefreshAccessToken now (.jws u refreshToken stdA sigA)
      = .error (.wrap err msg) := by
  have hemb := VerifyAccessToken_jws_fst auth now u refreshToken stdA sigA
  rcases parseAccessToken_cases auth now (.jws u refreshToken stdA sigA)
    with hok | ⟨e', _, herr⟩ | ⟨msg, hp, _⟩
  · refine ⟨_, _, RefreshAccessToken_refresh_denied auth now _ e hok ?_⟩
    rw [hemb, parseRefreshToken_snd]
    exact href
  · exact ⟨_, _, RefreshAccessToken_access_rejected auth now _ e' herr⟩
  · exfalso
    rcases ParseWithClaims_jws_snd u refreshToken stdA sigA auth.publicKey now
      with h | ⟨e', h⟩
    · rw [h] at hp; cases hp
    · rw [h] at hp; cases hp

/-- The strict parse of a token whose `ExpiresAt` is set and lies before `now` returns
a validation error whose failure set holds expiry. -/
theorem ParseWithClaims_expired (u : String) (r : TokenString) (std : StandardClaims)
    (sig : Signature) (pub now : Nat)
    (hset : std.ExpiresAt ≠ 0) (hexpired : std.ExpiresAt < time.Unix now) :
    ∃ e, e &&& ValidationErrorExpired ≠ 0 ∧
      (ParseWithClaims (.jws u r std sig) pub now).2 = some (.validation e) := by
  have hexp : verifyExp std.ExpiresAt (time.Unix now) false = false := by
    unfold verifyExp
    rw [if_neg hset]
    simp only [decide_eq_false_iff_not, not_le]
    exact hexpired
  unfold ParseWithClaims StandardClaims.Valid
  simp only [hexp, if_true]
  cases verifyIat std.IssuedAt (time.Unix now) false <;>
    cases verifyNbf std.NotBefore (time.Unix now) false <;>
    cases Verify sig pub <;>
    exact ⟨_, by decide, rfl⟩

/-- The strict parse of a correctly signed token that is not presented before its
`IssuedAt` or `NotBefore` reports nothing or expiry alone. -/
theorem ParseWithClaims_signed (u : String) (r : TokenString) (exp iat nbf : Int)
    (sig : Signature) (pub now : Nat)
    (hsigned : Verify sig pub = true)
    (hiat : verifyIat iat (time.Unix now) false = true)
    (hnbf : verifyNbf nbf (time.Unix now) false = true) :
    (ParseWithClaims (.jws u r ⟨exp, iat, nbf⟩ sig) pub now).2 = none ∨
      (ParseWithClaims (.jws u r ⟨exp, iat, nbf⟩ sig) pub now).2
        = some (.validation ValidationErrorExpired) := by
  unfold ParseWithClaims StandardClaims.Valid
  simp only [hsigned, hiat, hnbf]
  cases verifyExp exp (time.Unix now) false
  · right; rfl
  · left; rfl

/-- The denial of a refresh with an expired refresh token, where the parse returns.
For every access token that carries registered claims and is correctly signed for the
authenticator, and whose embedded refresh token is expired at `now` (its `ExpiresAt`
is set and lies before the Unix second of `now`), `RefreshAccessToken` at `now`
returns an error and no token. The strict parse of the refresh token reports a
failure set `e` that holds expiry, and when the access token is not presented before
its `IssuedAt` or `NotBefore`, the outcome is that failure wrapped as "failed to parse
refresh token" for every `ExpiresAt` of the access token, expired or still valid. -/
theorem RefreshAccessToken_denied_when_refresh_expired (auth : Authenticator) (now : Nat)
    (u ur : String) (rr : TokenString) (stdA stdR : StandardClaims) (sigA sigR : Signature)
    (hsigned : Verify sigA auth.publicKey = true)
    (hset : stdR.ExpiresAt ≠ 0) (hexpired : stdR.ExpiresAt < time.Unix now) :
    (∃ err msg, auth.RefreshAccessToken now (.jws u (.jws ur rr stdR sigR) stdA sigA)
        = .error (.wrap err msg)) ∧
      ∃ e, e &&& ValidationErrorExpired ≠ 0 ∧
        (auth.parseRefreshToken now (.jws ur rr stdR sigR)).2 = some (.validation e) ∧
        (verifyIat stdA.IssuedAt (time.Unix now) false = true →
          verifyNbf stdA.NotBefore (time.Unix now) false = true →
          ∀ expiresAt : Int,
            auth.RefreshAccessToken now
                (.jws u (.jws ur rr stdR sigR) ⟨expiresAt, stdA.IssuedAt, stdA.NotBefore⟩ sigA)
              = .error (.wrap (.validation e) "failed to parse refresh token")) := by
  obtain ⟨e, hbit, he⟩ := ParseWithClaims_expired ur rr stdR sigR auth.publicKey now hset
    hexpired
  refine ⟨RefreshAccessToken_error_of_jws auth now u _ stdA sigA e he, e, hbit, ?_, ?_⟩
  · rw [parseRefreshToken_snd]
    exact he
  · intro hiat hnbf expiresAt
    have hacc : auth.parseAccessToken now
        (.jws u (.jws ur rr stdR sigR) ⟨expiresAt, stdA.IssuedAt, stdA.NotBefore⟩ sigA)
        = .ok (auth.VerifyAccessToken now
            (.jws u (.jws ur rr stdR sigR) ⟨expiresAt, stdA.IssuedAt, stdA.NotBefore⟩
              sigA)).1 := by
      apply parseAccessToken_tolerant
      rw [VerifyAccessToken_snd]
      rcases ParseWithClaims_signed u (.jws ur rr stdR sigR) expiresAt stdA.IssuedAt
        stdA.NotBefore sigA auth.publicKey now hsigned hiat hnbf with h | h
      · left; exact h
      · right; exact ⟨_, h, by decide⟩
    apply RefreshAccessToken_refresh_denied auth now _ e hacc
    rw [VerifyAccessToken_jws_fst, parseRefreshToken_snd]
    exact he

/-- The scenario 200 s after the pair was issued: both tokens are expired, and the
refresh is denied with the refresh token's expiry error, as it is for every other
expiry of the access token. -/
theorem RefreshAccessToken_denied_when_refresh_expired_witness :
    (Verify (.rs512 7) scenario.authenticator.publicKey = true ∧
        (1180 : Int) ≠ 0 ∧ (1180 : Int) < time.Unix (1200000000000 : Nat)) ∧
      ((∃ err msg, scenario.authenticator.RefreshAccessToken 1200000000000
            scenario.accessToken = .error (.wrap err msg)) ∧
        ∃ e, e &&& ValidationErrorExpired ≠ 0 ∧
          (scenario.authenticator.parseRefreshToken 1200000000000 scenario.refreshToken).2
            = some (.validation e) ∧
          (verifyIat 0 (time.Unix (1200000000000 : Nat)) false = true →
            verifyNbf 0 (time.Unix (1200000000000 : Nat)) false = true →
            ∀ expiresAt : Int,
              scenario.authenticator.RefreshAccessToken 1200000000000
                  (.jws "" scenario.refreshToken ⟨expiresAt, 0, 0⟩ (.rs512 7))
                = .error (.wrap (.validation e) "failed to parse refresh token"))) :=
  ⟨by decide,
    RefreshAccessToken_denied_when_refresh_expired scenario.authenticator 1200000000000
      "" "alice" (.text "") ⟨1030, 0, 0⟩ ⟨1180, 0, 0⟩ (.rs512 7) (.rs512 7)
      (by decide) (by decide) (by decide)⟩

/-- C3 (evaluation at the failing input). The authenticator of the scenario,
configured with an access lifespan of -1000 s, issues at second 1000 a correctly signed
access token whose `ExpiresAt` is 0 and is therefore left out of the payload. It embeds
the refresh token of the scenario, which is expired at second 1200. `RefreshAccessToken`
at second 1200 panics in the parse of the access token: it returns neither the error
that the claim requires for every correctly signed access token with an expired
refresh token, nor a token. The same holds for every correctly signed token without
registered claims. -/
theorem RefreshAccessToken_panics_on_access_token_without_registered_claims :
    scenario.misconfigured.NewRefreshToken scenario.t0 "alice" = .ok scenario.refreshToken ∧
      scenario.misconfigured.NewAccessToken scenario.t0 scenario.refreshToken
        = .ok scenario.bareAccessToken ∧
      (scenario.misconfigured.parseRefreshToken 1200000000000 scenario.refreshToken).2
        = some (.validation ValidationErrorExpired) ∧
      scenario.misconfigured.RefreshAccessToken 1200000000000 scenario.bareAccessToken
        = .error (.panic nilPointerDereference) ∧
      ∀ (auth : Authenticator) (now : Nat) (username : String) (refreshToken : TokenString),
        auth.RefreshAccessToken now (.bare username refreshToken (.rs512 auth.publicKey))
          = .error (.panic nilPointerDereference) := by
  refine ⟨by decide, by decide, by decide, by decide, ?_⟩
  intro auth now username refreshToken
  rfl

/-- C4 (counterexample). In the scenario the access token expires at second 1030.
Strict verification at that very second, `now == expiresAt`, returns no error, where
the claim requires an expiry error at and after `expiresAt`. -/
theorem strict_accepts_at_expiry_instant :
    scenario.authenticator.NewAccessToken scenario.t0 scenario.refreshToken
        = .ok scenario.accessToken ∧
      (scenario.authenticator.VerifyAccessToken 1030000000000 scenario.accessToken).1.std.ExpiresAt
        = 1030 ∧
      time.Unix (1030000000000 : Nat) ≥ 1030 ∧
      (scenario.authenticator.VerifyAccessToken 1030000000000 scenario.accessToken).2 = none := by
  decide

/-- C4 (amended). For an authenticator with a matching key pair, the access token that
`NewAccessToken` issues at `t0` around `refreshToken`, with a nonzero `ExpiresAt`, and
every time `now` whose Unix second is after `ExpiresAt`: `VerifyAccessToken` at `now`
fails with the expiry error alone, and `parseAccessToken` at `now` returns without
error the original claims, the same refresh token and the same `ExpiresAt`. -/
theorem VerifyAccessToken_expired_parseAccessToken_tolerant (auth : Authenticator)
    (t0 now : Nat) (refreshToken : TokenString)
    (hkey : auth.publicKey = auth.privateKey)
    (h0 : time.Unix (time.Add t0 (time.Seconds auth.accessTokenLifespan)) ≠ 0)
    (hlt : time.Unix (time.Add t0 (time.Seconds auth.accessTokenLifespan)) < time.Unix now) :
    ∃ a, auth.NewAccessToken t0 refreshToken = .ok a ∧
      (auth.VerifyAccessToken now a).2 = some (.validation ValidationErrorExpired) ∧
      auth.parseAccessToken now a
        = .ok ⟨refreshToken,
            ⟨time.Unix (time.Add t0 (time.Seconds auth.accessTokenLifespan)), 0, 0⟩⟩ := by
  refine ⟨_, NewAccessToken_eq auth t0 refreshToken, ?_⟩
  rw [encode_of_ne_zero _ _ _ _ h0]
  have hstrict : (auth.VerifyAccessToken now
      (.jws "" refreshToken
        ⟨time.Unix (time.Add t0 (time.Seconds auth.accessTokenLifespan)), 0, 0⟩
        (.rs512 auth.privateKey))).2 = some (.validation ValidationErrorExpired) := by
    unfold Authenticator.VerifyAccessToken
    rw [ParseWithClaims_issued]
    simp only
    rw [if_pos hkey.symm, if_pos ⟨h0, hlt⟩]
  refine ⟨hstrict, ?_⟩
  rw [parseAccessToken_tolerant auth now _ (Or.inr ⟨_, hstrict, by decide⟩),
    VerifyAccessToken_jws_fst]

/-- C4 (witness). The scenario one second after the access token's expiry instant. -/
theorem VerifyAccessToken_expired_parseAccessToken_tolerant_witness :
    (scenario.authenticator.publicKey = scenario.authenticator.privateKey ∧
        time.Unix (time.Add scenario.t0
          (time.Seconds scenario.authenticator.accessTokenLifespan)) ≠ 0 ∧
        time.Unix (time.Add scenario.t0
          (time.Seconds scenario.authenticator.accessTokenLifespan))
          < time.Unix (1031000000000 : Nat)) ∧
      ∃ a, scenario.authenticator.NewAccessToken scenario.t0 scenario.refreshToken = .ok a ∧
        (scenario.authenticator.VerifyAccessToken 1031000000000 a).2
          = some (.validation ValidationErrorExpired) ∧
        scenario.authenticator.parseAccessToken 1031000000000 a
          = .ok ⟨scenario.refreshToken,
              ⟨time.Unix (time.Add scenario.t0
                (time.Seconds scenario.authenticator.accessTokenLifespan)), 0, 0⟩⟩ :=
  ⟨by decide,
    VerifyAccessToken_expired_parseAccessToken_tolerant scenario.authenticator scenario.t0
      1031000000000 scenario.refreshToken (by decide) (by decide) (by decide)⟩

/-- C5 (counterexample). In the scenario the access token is presented for refresh
half a second after the pair was issued, within the same Unix second. The refresh
succeeds, and the refresh token embedded in the returned access token is the original
refresh token, string for string (as is the returned access token itself). -/
theorem refresh_in_the_second_of_issuance_returns_same_refresh_token :
    scenario.authenticator.NewRefreshToken scenario.t0 "alice" = .ok scenario.refreshToken ∧
      scenario.authenticator.NewAccessToken scenario.t0 scenario.refreshToken
        = .ok scenario.accessToken ∧
      scenario.authenticator.RefreshAccessToken 1000500000000 scenario.accessToken
        = .ok scenario.accessToken ∧
      (scenario.authenticator.VerifyAccessToken 1000500000000 scenario.accessToken).1.RefreshToken
        = scenario.refreshToken := by
  decide

/-- C5 (amended). Whenever `RefreshAccessToken` succeeds and the expiry instant of the
presented refresh token is not the one a refresh token issued at `now` gets, the
refresh-token string embedded in the returned access token differs from the one
embedded in the presented access token. -/
theorem RefreshAccessToken_rotates_when_expiry_moves (auth : Authenticator) (now : Nat)
    (rawAccessToken a' : TokenString)
    (hok : auth.RefreshAccessToken now rawAccessToken = .ok a')
    (hmove : (auth.parseRefreshToken now
          (auth.VerifyAccessToken now rawAccessToken).1.RefreshToken).1.std.ExpiresAt
        ≠ time.Unix (time.Add now (time.Seconds auth.refreshTokenLifespan))) :
    (auth.VerifyAccessToken now a').1.RefreshToken
      ≠ (auth.VerifyAccessToken now rawAccessToken).1.RefreshToken := by
  obtain ⟨hform, _, _⟩ := RefreshAccessToken_ok_inv auth now rawAccessToken a' hok
  subst hform
  rw [VerifyAccessToken_encode_fst]
  intro heq
  apply hmove
  simp only at heq
  rw [← heq, parseRefreshToken_encode_fst]

/-- C5 (witness). The scenario, 35 s after the pair was issued. -/
theorem RefreshAccessToken_rotates_when_expiry_moves_witness :
    (scenario.authenticator.RefreshAccessToken 1035000000000 scenario.accessToken
          = .ok (.jws "" (.jws "alice" (.text "") ⟨1215, 0, 0⟩ (.rs512 7)) ⟨1065, 0, 0⟩
              (.rs512 7)) ∧
        (scenario.authenticator.parseRefreshToken 1035000000000
            (scenario.authenticator.VerifyAccessToken 1035000000000
              scenario.accessToken).1.RefreshToken).1.std.ExpiresAt
          ≠ time.Unix (time.Add 1035000000000
              (time.Seconds scenario.authenticator.refreshTokenLifespan))) ∧
      (scenario.authenticator.VerifyAccessToken 1035000000000
          (.jws "" (.jws "alice" (.text "") ⟨1215, 0, 0⟩ (.rs512 7)) ⟨1065, 0, 0⟩
            (.rs512 7))).1.RefreshToken
        ≠ (scenario.authenticator.VerifyAccessToken 1035000000000
            scenario.accessToken).1.RefreshToken :=
  ⟨by decide,
    RefreshAccessToken_rotates_when_expiry_moves scenario.authenticator 1035000000000
      scenario.accessToken _ (by decide) (by decide)⟩

/-- C6 (counterexample). In the scenario the original access token is presented
exactly 180 s, the refresh lifespan, after the pair was issued: the refresh token is
not yet expired for the library, and `RefreshAccessToken` succeeds. -/
theorem refresh_succeeds_at_refresh_lifespan :
    scenario.authenticator.NewRefreshToken scenario.t0 "alice" = .ok scenario.refreshToken ∧
      scenario.authenticator.NewAccessToken scenario.t0 scenario.refreshToken
        = .ok scenario.accessToken ∧
      scenario.authenticator.refreshTokenLifespan = 180 ∧
      scenario.authenticator.RefreshAccessToken (scenario.t0 + 180 * 1000000000)
          scenario.accessToken
        = .ok (.jws "" (.jws "alice" (.text "") ⟨1360, 0, 0⟩ (.rs512 7)) ⟨1210, 0, 0⟩
            (.rs512 7)) := by
  decide

/-- C6 (amended). A refresh token is issued at `t0` and embedded in an access token
issued at `ta` by an authenticator whose two lifespans are positive and at most
9223372036 s. For every time `now` whose Unix second lies after the Unix second of
`t0` plus the refresh lifespan, `RefreshAccessToken` called at `now` on that access
token returns an error, with a matching key pair the refresh token's expiry wrapped
as "failed to parse refresh token". With a matching key pair it succeeds at every
other time, in particular throughout the second at which exactly the refresh lifespan
has elapsed. -/
theorem RefreshAccessToken_fails_after_refresh_lifespan (auth : Authenticator)
    (username : String) (t0 ta now : Nat) (r a : TokenString)
    (hrpos : 0 < auth.refreshTokenLifespan) (hrmax : auth.refreshTokenLifespan ≤ 9223372036)
    (hapos : 0 < auth.accessTokenLifespan) (hamax : auth.accessTokenLifespan ≤ 9223372036)
    (hr : auth.NewRefreshToken t0 username = .ok r)
    (ha : auth.NewAccessToken ta r = .ok a)
    (hnow : time.Unix t0 + auth.refreshTokenLifespan < time.Unix now) :
    (∃ err msg, auth.RefreshAccessToken now a = .error (.wrap err msg)) ∧
      (auth.publicKey = auth.privateKey →
        auth.RefreshAccessToken now a
            = .error (.wrap (.validation ValidationErrorExpired)
                "failed to parse refresh token") ∧
          ∀ earlier : Nat, time.Unix earlier ≤ time.Unix t0 + auth.refreshTokenLifespan →
            ∃ a', auth.RefreshAccessToken earlier a = .ok a') := by
  rw [NewRefreshToken_eq] at hr
  rw [NewAccessToken_eq] at ha
  injection hr with hr
  injection ha with ha
  subst hr
  subst ha
  have hEr := Unix_Add_Seconds t0 auth.refreshTokenLifespan (by omega) hrmax
  have hEa := Unix_Add_Seconds ta auth.accessTokenLifespan (by omega) hamax
  have ht0 : (0 : Int) ≤ time.Unix t0 := by simp only [time.Unix]; omega
  have hta : (0 : Int) ≤ time.Unix ta := by simp only [time.Unix]; omega
  have hr0 : time.Unix (time.Add t0 (time.Seconds auth.refreshTokenLifespan)) ≠ 0 := by
    rw [hEr]; omega
  have ha0 : time.Unix (time.Add ta (time.Seconds auth.accessTokenLifespan)) ≠ 0 := by
    rw [hEa]; omega
  rw [encode_of_ne_zero _ _ _ _ hr0, encode_of_ne_zero _ _ _ _ ha0]
  have hparse := ParseWithClaims_issued username (.text "")
    (time.Unix (time.Add t0 (time.Seconds auth.refreshTokenLifespan))) auth.privateKey
    auth.publicKey
  constructor
  · have hcond : time.Unix (time.Add t0 (time.Seconds auth.refreshTokenLifespan)) ≠ 0 ∧
        time.Unix (time.Add t0 (time.Seconds auth.refreshTokenLifespan))
          < time.Unix now := ⟨hr0, by rw [hEr]; exact hnow⟩
    have hsome : ∃ e, (ParseWithClaims (.jws username (.text "")
        ⟨time.Unix (time.Add t0 (time.Seconds auth.refreshTokenLifespan)), 0, 0⟩
        (.rs512 auth.privateKey)) auth.publicKey now).2 = some (.validation e) := by
      rw [hparse now]
      simp only
      rw [if_pos hcond, if_pos hcond]
      by_cases hk : auth.privateKey = auth.publicKey
      · exact ⟨_, if_pos hk⟩
      · exact ⟨_, if_neg hk⟩
    obtain ⟨e, he⟩ := hsome
    exact RefreshAccessToken_error_of_jws auth now _ _ _ _ e he
  · intro hkey
    have haccess : ∀ t : Nat, auth.parseAccessToken t
        (.jws "" (.jws username (.text "")
            ⟨time.Unix (time.Add t0 (time.Seconds auth.refreshTokenLifespan)), 0, 0⟩
            (.rs512 auth.privateKey))
          ⟨time.Unix (time.Add ta (time.Seconds auth.accessTokenLifespan)), 0, 0⟩
          (.rs512 auth.privateKey))
        = .ok (auth.VerifyAccessToken t
          (.jws "" (.jws username (.text "")
              ⟨time.Unix (time.Add t0 (time.Seconds auth.refreshTokenLifespan)), 0, 0⟩
              (.rs512 auth.privateKey))
            ⟨time.Unix (time.Add ta (time.Seconds auth.accessTokenLifespan)), 0, 0⟩
            (.rs512 auth.privateKey))).1 := by
      intro t
      apply parseAccessToken_tolerant
      rw [VerifyAccessToken_snd, ParseWithClaims_issued]
      simp only
      rw [if_pos hkey.symm]
      split
      · right; exact ⟨_, rfl, by decide⟩
      · left; rfl
    constructor
    · apply RefreshAccessToken_refresh_denied auth now _ _ (haccess now)
      rw [VerifyAccessToken_jws_fst, parseRefreshToken_snd, hparse now]
      simp only
      rw [if_pos hkey.symm, if_pos ⟨hr0, by rw [hEr]; exact hnow⟩]
    · intro earlier hearlier
      refine ⟨_, RefreshAccessToken_ok auth earlier _ (haccess earlier) ?_⟩
      rw [VerifyAccessToken_jws_fst, parseRefreshToken_snd, hparse earlier]
      simp only
      rw [if_pos hkey.symm, if_neg]
      rw [hEr]
      intro hc
      omega

/-- C6 (witness). The scenario, 181 s after the pair was issued. -/
theorem RefreshAccessToken_fails_after_refresh_lifespan_witness :
    (0 < scenario.authenticator.refreshTokenLifespan ∧
        scenario.authenticator.refreshTokenLifespan ≤ 9223372036 ∧
        0 < scenario.authenticator.accessTokenLifespan ∧
        scenario.authenticator.accessTokenLifespan ≤ 9223372036 ∧
        scenario.authenticator.NewRefreshToken scenario.t0 "alice" = .ok scenario.refreshToken ∧
        scenario.authenticator.NewAccessToken scenario.t0 scenario.refreshToken
          = .ok scenario.accessToken ∧
        time.Unix scenario.t0 + scenario.authenticator.refreshTokenLifespan
          < time.Unix (1181000000000 : Nat)) ∧
      ((∃ err msg, scenario.authenticator.RefreshAccessToken 1181000000000
          scenario.accessToken = .error (.wrap err msg)) ∧
        (scenario.authenticator.publicKey = scenario.authenticator.privateKey →
          scenario.authenticator.RefreshAccessToken 1181000000000 scenario.accessToken
              = .error (.wrap (.validation ValidationErrorExpired)
                  "failed to parse refresh token") ∧
            ∀ earlier : Nat,
              time.Unix earlier
                  ≤ time.Unix scenario.t0 + scenario.authenticator.refreshTokenLifespan →
              ∃ a', scenario.authenticator.RefreshAccessToken earlier scenario.accessToken
                = .ok a')) :=
  ⟨by decide,
    RefreshAccessToken_fails_after_refresh_lifespan scenario.authenticator "alice" scenario.t0
      scenario.t0 1181000000000 scenario.refreshToken scenario.accessToken
      (by decide) (by decide) (by decide) (by decide) (by decide) (by decide) (by decide)⟩

/-- C7 (counterexample). With the positive access lifespan 9223372037 s, the access
token issued at second 1000 has `ExpiresAt` -9223371037, not 1000 + 9223372037, and
strict verification in the instant of issuance fails with expiry. -/
theorem NewAccessToken_expiry_wraps_for_long_lifespan :
    0 < scenario.longAuthenticator.accessTokenLifespan ∧
      scenario.longAuthenticator.NewAccessToken scenario.t0 scenario.refreshToken
        = .ok scenario.longAccessToken ∧
      (scenario.longAuthenticator.VerifyAccessToken scenario.t0
          scenario.longAccessToken).1.std.ExpiresAt
        ≠ time.Unix scenario.t0 + scenario.longAuthenticator.accessTokenLifespan ∧
      time.Unix scenario.t0
        < time.Unix scenario.t0 + scenario.longAuthenticator.accessTokenLifespan ∧
      (scenario.longAuthenticator.VerifyAccessToken scenario.t0 scenario.longAccessToken).2
        = some (.validation ValidationErrorExpired) := by
  decide

/-- C7 (amended). For an authenticator with a matching key pair and an access lifespan
`L` that is positive and at most 9223372036 s, every refresh-token string `r` and
every issue time `t0`: `NewAccessToken(r)` at `t0` returns a token whose `ExpiresAt`
is the Unix second of `t0` plus `L`, and `VerifyAccessToken` of that token at every
time `now` whose Unix second is not after that instant returns no error and claims
whose embedded refresh token is `r`. -/
theorem NewAccessToken_verifies_before_expiry (auth : Authenticator) (t0 : Nat)
    (r : TokenString)
    (hkey : auth.publicKey = auth.privateKey)
    (hpos : 0 < auth.accessTokenLifespan) (hmax : auth.accessTokenLifespan ≤ 9223372036) :
    ∃ a, auth.NewAccessToken t0 r = .ok a ∧
      (auth.VerifyAccessToken t0 a).1.std.ExpiresAt
        = time.Unix t0 + auth.accessTokenLifespan ∧
      ∀ now : Nat, time.Unix now ≤ time.Unix t0 + auth.accessTokenLifespan →
        auth.VerifyAccessToken now a
          = (⟨r, ⟨time.Unix t0 + auth.accessTokenLifespan, 0, 0⟩⟩, none) := by
  have hE := Unix_Add_Seconds t0 auth.accessTokenLifespan (by omega) hmax
  have ht0 : (0 : Int) ≤ time.Unix t0 := by simp only [time.Unix]; omega
  have h0 : time.Unix (time.Add t0 (time.Seconds auth.accessTokenLifespan)) ≠ 0 := by
    rw [hE]; omega
  refine ⟨_, NewAccessToken_eq auth t0 r, ?_, ?_⟩
  · rw [VerifyAccessToken_encode_fst, hE]
  · intro now hnow
    rw [encode_of_ne_zero _ _ _ _ h0]
    have h1 := VerifyAccessToken_jws_fst auth now "" r
      ⟨time.Unix (time.Add t0 (time.Seconds auth.accessTokenLifespan)), 0, 0⟩
      (.rs512 auth.privateKey)
    have h2 : (auth.VerifyAccessToken now
        (.jws "" r ⟨time.Unix (time.Add t0 (time.Seconds auth.accessTokenLifespan)), 0, 0⟩
          (.rs512 auth.privateKey))).2 = none := by
      unfold Authenticator.VerifyAccessToken
      rw [ParseWithClaims_issued]
      simp only
      rw [if_pos hkey.symm, if_neg]
      rw [hE]
      intro hc
      omega
    rw [hE] at h1 h2
    rw [hE]
    exact Prod.ext h1 h2

/-- C7 (witness). The scenario: the access token issued at second 1000 expires at
second 1030. -/
theorem NewAccessToken_verifies_before_expiry_witness :
    (scenario.authenticator.publicKey = scenario.authenticator.privateKey ∧
        0 < scenario.authenticator.accessTokenLifespan ∧
        scenario.authenticator.accessTokenLifespan ≤ 9223372036) ∧
      ∃ a, scenario.authenticator.NewAccessToken scenario.t0 scenario.refreshToken = .ok a ∧
        (scenario.authenticator.VerifyAccessToken scenario.t0 a).1.std.ExpiresAt
          = time.Unix scenario.t0 + scenario.authenticator.accessTokenLifespan ∧
        ∀ now : Nat,
          time.Unix now ≤ time.Unix scenario.t0 + scenario.authenticator.accessTokenLifespan →
          scenario.authenticator.VerifyAccessToken now a
            = (⟨scenario.refreshToken,
                ⟨time.Unix scenario.t0 + scenario.authenticator.accessTokenLifespan, 0, 0⟩⟩,
              none) :=
  ⟨by decide,
    NewAccessToken_verifies_before_expiry scenario.authenticator scenario.t0
      scenario.refreshToken (by decide) (by decide) (by decide)⟩

/-! ## Configuration -/

/-- C8 (counterexample). A configuration file that names everything but the two
lifespans is loaded: the loaded lifespans are zero, `ReadFromFile` returns no error,
and `NewAuthenticator` constructs an Authenticator with both lifespans zero. -/
theorem zero_lifespans_pass_validation :
    config.Config.ReadFromFile scenario.ReadFile scenario.Unmarshal config.DefaultConfig
        "zero-lifespans.yml"
        = (scenario.zeroLifespans, none) ∧
      scenario.zeroLifespans.toAuth.AccessTokenLifespan = 0 ∧
      scenario.zeroLifespans.toAuth.RefreshTokenLifespan = 0 ∧
      NewAuthenticator scenario.ReadFile scenario.ParsePEM scenario.ParsePEM
          scenario.zeroLifespans.toAuth
        = .ok ⟨7, 7, 0, 0⟩ := by
  decide

/-- C8 (amended). For every file system, YAML decoder, starting configuration and
file: if the configuration as `ReadFromFile` leaves it has an empty public or private
key path, `ReadFromFile` returns an error. -/
theorem ReadFromFile_rejects_empty_key_path (ReadFile : String → Except GoError String)
    (Unmarshal : String → config.Config → config.Config × Option GoError)
    (cfg : config.Config) (filepath : String)
    (h : (config.Config.ReadFromFile ReadFile Unmarshal cfg filepath).1.toAuth.PublicKeyPath = "" ∨
      (config.Config.ReadFromFile ReadFile Unmarshal cfg filepath).1.toAuth.PrivateKeyPath = "") :
    (config.Config.ReadFromFile ReadFile Unmarshal cfg filepath).2 ≠ none := by
  unfold config.Config.ReadFromFile at h ⊢
  cases hrf : ReadFile filepath with
  | error err => simp
  | ok file =>
    rcases hu : Unmarshal file cfg with ⟨loaded, err⟩
    simp only [hu] at h ⊢
    split_ifs at h ⊢ with h1 h2 h3 h4 h5 h6 h7 <;> simp_all

/-- C8 (witness). A file whose loaded configuration has an empty public key path. -/
theorem ReadFromFile_rejects_empty_key_path_witness :
    ((config.Config.ReadFromFile scenario.ReadFile scenario.Unmarshal config.DefaultConfig
          "no-public-key-path.yml").1.toAuth.PublicKeyPath = "" ∨
        (config.Config.ReadFromFile scenario.ReadFile scenario.Unmarshal config.DefaultConfig
          "no-public-key-path.yml").1.toAuth.PrivateKeyPath = "") ∧
      (config.Config.ReadFromFile scenario.ReadFile scenario.Unmarshal config.DefaultConfig
        "no-public-key-path.yml").2 ≠ none :=
  ⟨by decide,
    ReadFromFile_rejects_empty_key_path scenario.ReadFile scenario.Unmarshal
      config.DefaultConfig "no-public-key-path.yml" (by decide)⟩

/-! ## The Secure middleware -/

theorem WriteHeader_Body (w : http.ResponseWriter) (code : Nat) :
    (w.WriteHeader code).Body = w.Body := by
  unfold http.ResponseWriter.WriteHeader
  split <;> rfl

theorem Error_Body (w : http.ResponseWriter) (error : String) (code : Nat) :
    (http.Error w error code).Body = w.Body ++ (error ++ "\n") := by
  simp only [http.Error, http.ResponseWriter.Write, WriteHeader_Body,
    http.ResponseWriter.SetHeader]

theorem Error_ne_self (w : http.ResponseWriter) (error : String) (code : Nat) :
    http.Error w error code ≠ w := by
  intro h
  have hb := congrArg (fun x => x.Body.length) h
  simp only [Error_Body, String.length_append] at hb
  have h1 : "\n".length = 1 := by decide
  omega

/-- What `Secure` does when `VerifyAccessToken` returns: for every extractor, request
and writer such that verification of the extracted token does not panic, the secured
handler returns the response of the wrapped handler, whatever that handler is, if and
only if the extractor returns a token without error and `VerifyAccessToken` accepts
it; in every other case, and only then, it returns the response of
`http.Error(w, "Forbidden", 403)` whatever the wrapped handler is; and on a writer
whose header is not yet written that response has status 403. -/
theorem Secure_when_verification_returns (auth : Authenticator) (now : Nat)
    (extractor : http.Request → Except GoError TokenString) (w : http.ResponseWriter)
    (r : http.Request)
    (hret : ∀ token msg, extractor r = .ok token →
      (auth.VerifyAccessToken now token).2 ≠ some (.panic msg)) :
    ((∃ token, extractor r = .ok token ∧ (auth.VerifyAccessToken now token).2 = none) ↔
        ∀ next : http.Handler, auth.Secure now extractor next w r = .ok (next w r)) ∧
      ((¬ ∃ token, extractor r = .ok token ∧ (auth.VerifyAccessToken now token).2 = none) ↔
        ∀ next : http.Handler,
          auth.Secure now extractor next w r = .ok (http.Error w "Forbidden" 403)) ∧
      (http.Error { w with Status := none } "Forbidden" 403).Status = some 403 := by
  have hacc : (∃ token, extractor r = .ok token ∧ (auth.VerifyAccessToken now token).2 = none) →
      ∀ next : http.Handler, auth.Secure now extractor next w r = .ok (next w r) := by
    rintro ⟨token, hx, hv⟩ next
    unfold Authenticator.Secure
    simp only [hx, hv]
  have hrej : (¬ ∃ token, extractor r = .ok token ∧ (auth.VerifyAccessToken now token).2 = none) →
      ∀ next : http.Handler,
        auth.Secure now extractor next w r = .ok (http.Error w "Forbidden" 403) := by
    intro hn next
    unfold Authenticator.Secure
    cases hx : extractor r with
    | error e => rfl
    | ok token =>
      cases hv : (auth.VerifyAccessToken now token).2 with
      | none => exact absurd ⟨token, hx, hv⟩ hn
      | some e =>
        cases e with
        | panic msg => exact absurd hv (hret token msg hx)
        | validation bits => simp only [hv]; rfl
        | other msg => simp only [hv]; rfl
        | wrap c msg => simp only [hv]; rfl
  refine ⟨⟨hacc, ?_⟩, ⟨hrej, ?_⟩, ?_⟩
  · intro hall
    by_contra hn
    have h1 := hall (fun w _ => w)
    rw [hrej hn] at h1
    injection h1 with h1
    exact Error_ne_self w _ _ h1
  · intro hall hex
    have h1 := hall (fun w _ => w)
    rw [hacc hex] at h1
    injection h1 with h1
    exact Error_ne_self w _ _ h1.symm
  · rfl

/-- C9 (evaluation at the failing input). The extractor returns a compact token whose
payload carries no registered claim, such as `eyJhbGciOiJSUzUxMiJ9.e30.AAAA` with the
payload `{}`, whatever its signature segment. For every authenticator, time, wrapped
handler, writer and request, `VerifyAccessToken` panics on it and so does the secured
handler: it neither returns the response 403 Forbidden, which the claim requires in
every case in which the token is not accepted, nor invokes the wrapped handler. -/
theorem Secure_panics_on_token_without_registered_claims (auth : Authenticator) (now : Nat)
    (next : http.Handler) (w : http.ResponseWriter) (r : http.Request)
    (username : String) (refreshToken : TokenString) (sig : Signature) :
    (auth.VerifyAccessToken now (.bare username refreshToken sig)).2
        = some (.panic nilPointerDereference) ∧
      auth.Secure now (fun _ => .ok (.bare username refreshToken sig)) next w r
        = .error (.panic nilPointerDereference) ∧
      auth.Secure now (fun _ => .ok (.bare username refreshToken sig)) next w r
        ≠ .ok (http.Error w "Forbidden" 403) ∧
      scenario.authenticator.Secure scenario.t0 (fun _ => .ok scenario.emptyPayloadToken)
          scenario.hello scenario.recorder ⟨"GET", [], ""⟩
        = .error (.panic nilPointerDereference) := by
  refine ⟨rfl, rfl, ?_, rfl⟩
  intro h
  cases h

/-! ## Password hashing -/

theorem keyStream_longPassword_append (b : UInt8) :
    bcrypt.keyStream (scenario.longPassword ++ [b]) = bcrypt.keyStream scenario.longPassword := by
  unfold bcrypt.keyStream scenario.longPassword
  simp only [List.length_append, List.length_replicate, List.length_singleton]
  apply List.map_congr_left
  intro j hj
  rw [List.mem_range] at hj
  have h1 : j % (72 + 1 + 1) = j := Nat.mod_eq_of_lt (by omega)
  have h2 : j % (72 + 1) = j := Nat.mod_eq_of_lt (by omega)
  rw [h1, h2]
  simp only [List.getD_eq_getElem?_getD, List.append_assoc]
  rw [List.getElem?_append_left (by simpa using hj),
    List.getElem?_append_left (by simpa using hj)]

/-- C10 (counterexample). For a password `p` of 72 bytes and the 73-byte password that
appends one more byte to it: whatever the Blowfish computation, the library version
and the salt, `HashPassword(p)` succeeds with some hash `h`, and
`CheckPasswordHash(p2, h)` is true although `p2` is not `p`, because the key schedule
reads 72 bytes of key. -/
theorem CheckPasswordHash_accepts_longer_password :
    scenario.longPassword ++ [98] ≠ scenario.longPassword ∧
      ∀ (cipher : Int → List UInt8 → List UInt8 → List UInt8) (rejectLong : Bool)
        (salt : List UInt8),
        ∃ h, HashPassword cipher rejectLong salt scenario.longPassword = .ok h ∧
          CheckPasswordHash cipher (scenario.longPassword ++ [98]) h = true := by
  constructor
  · intro h
    have := congrArg List.length h
    simp [scenario.longPassword] at this
  · intro cipher rejectLong salt
    refine ⟨.encoded 14 salt (bcrypt.digest cipher scenario.longPassword 14 salt), ?_, ?_⟩
    · unfold HashPassword bcrypt.GenerateFromPassword
      have hl : ¬ (scenario.longPassword.length > 72) := by
        simp [scenario.longPassword]
      simp [hl, bcrypt.MinCost, bcrypt.MaxCost]
    · unfold CheckPasswordHash bcrypt.CompareHashAndPassword bcrypt.digest
      simp [keyStream_longPassword_append]

theorem keyStream_length (p : List UInt8) : (bcrypt.keyStream p).length = 72 := by
  simp [bcrypt.keyStream]

/-- Two passwords give the same key bytes exactly when the 72 positions of the key
schedule read the same byte. -/
theorem keyStream_eq_iff (p p2 : List UInt8) :
    bcrypt.keyStream p = bcrypt.keyStream p2 ↔
      ∀ j, j < 72 → (p ++ [0]).getD (j % (p.length + 1)) 0
        = (p2 ++ [0]).getD (j % (p2.length + 1)) 0 := by
  unfold bcrypt.keyStream
  simp only [List.length_append, List.length_singleton]
  rw [List.map_inj_left]
  constructor
  · intro h j hj
    exact h j (List.mem_range.2 hj)
  · intro h j hj
    exact h j (List.mem_range.1 hj)

theorem keyByte_of_lt (p : List UInt8) (j : Nat) (hj : j < p.length) :
    (p ++ [0]).getD (j % (p.length + 1)) 0 = p[j] := by
  rw [Nat.mod_eq_of_lt (by omega), List.getD_eq_getElem?_getD,
    List.getElem?_append_left hj, List.getElem?_eq_getElem hj]
  rfl

theorem keyByte_at_length (p : List UInt8) :
    (p ++ [0]).getD (p.length % (p.length + 1)) 0 = 0 := by
  rw [Nat.mod_eq_of_lt (by omega), List.getD_eq_getElem?_getD]
  simp

/-- Passwords without a zero byte, one of them of at most 71 bytes, give the same key
bytes only if they are equal. -/
theorem keyStream_injective_of_short (p p2 : List UInt8) (hlen : p.length ≤ 71)
    (hp : ∀ b ∈ p, b ≠ 0) (hp2 : ∀ b ∈ p2, b ≠ 0)
    (h : bcrypt.keyStream p2 = bcrypt.keyStream p) : p2 = p := by
  rw [keyStream_eq_iff] at h
  have hle : p2.length ≤ p.length := by
    by_contra hlt
    have h1 := h p.length (by omega)
    rw [keyByte_at_length, keyByte_of_lt p2 p.length (by omega)] at h1
    exact hp2 _ (List.getElem_mem _) h1
  have hge : p.length ≤ p2.length := by
    by_contra hlt
    have h1 := h p2.length (by omega)
    rw [keyByte_at_length, keyByte_of_lt p p2.length (by omega)] at h1
    exact hp _ (List.getElem_mem _) h1.symm
  apply List.ext_getElem (by omega)
  intro j h1 h2
  have hj := h j (by omega)
  rw [keyByte_of_lt p2 j h1, keyByte_of_lt p j h2] at hj
  exact hj

/-- C10 (amended). For every Blowfish computation that is free of collisions on
72-byte keys, every salt and every plaintext `p` that the library version at hand does
not reject for its length (any `p` of at most 72 bytes): `HashPassword(p)` succeeds
with a hash `h`, and for every `p2`, `CheckPasswordHash(p2, h)` is true if and only if
`p2` and `p` give the same 72 key bytes; when `p` has at most 71 bytes and neither
password holds a zero byte, that is if and only if `p2 = p`. `CheckPasswordHash`
returns false for a malformed hash. -/
theorem CheckPasswordHash_iff_same_key_bytes
    (cipher : Int → List UInt8 → List UInt8 → List UInt8) (rejectLong : Bool)
    (salt p : List UInt8)
    (hfree : ∀ (cost : Int) (salt k1 k2 : List UInt8), k1.length = 72 → k2.length = 72 →
      cipher cost salt k1 = cipher cost salt k2 → k1 = k2)
    (hlen : rejectLong = false ∨ p.length ≤ 72) :
    ∃ h, HashPassword cipher rejectLong salt p = .ok h ∧
      (∀ p2, CheckPasswordHash cipher p2 h = true ↔
        bcrypt.keyStream p2 = bcrypt.keyStream p) ∧
      (p.length ≤ 71 → (∀ b ∈ p, b ≠ 0) →
        ∀ p2, (∀ b ∈ p2, b ≠ 0) → (CheckPasswordHash cipher p2 h = true ↔ p2 = p)) ∧
      ∀ bytes p2, CheckPasswordHash cipher p2 (.malformed bytes) = false := by
  have hcheck : ∀ p2, CheckPasswordHash cipher p2
      (.encoded 14 salt (bcrypt.digest cipher p 14 salt)) = true ↔
      bcrypt.keyStream p2 = bcrypt.keyStream p := by
    intro p2
    unfold CheckPasswordHash bcrypt.CompareHashAndPassword bcrypt.digest
    constructor
    · intro hc
      by_cases hd : cipher 14 salt (bcrypt.keyStream p2) = cipher 14 salt (bcrypt.keyStream p)
      · exact hfree 14 salt _ _ (keyStream_length p2) (keyStream_length p) hd
      · simp [hd] at hc
    · intro hk
      simp [hk]
  refine ⟨.encoded 14 salt (bcrypt.digest cipher p 14 salt), ?_, hcheck, ?_, ?_⟩
  · unfold HashPassword bcrypt.GenerateFromPassword
    have hl : (rejectLong && decide (p.length > 72)) = false := by
      rcases hlen with h | h
      · simp [h]
      · simp; intro _; omega
    simp [hl, bcrypt.MinCost, bcrypt.MaxCost]
  · intro hshort hp p2 hp2
    rw [hcheck]
    constructor
    · exact keyStream_injective_of_short p p2 hshort hp hp2
    · intro he
      rw [he]
  · intro bytes p2
    unfold CheckPasswordHash bcrypt.CompareHashAndPassword
    simp

/-- C10 (witness). The password "hunter2", with the stand-in cipher, which is free of
collisions, and an empty salt. -/
theorem CheckPasswordHash_iff_same_key_bytes_witness :
    ((∀ (cost : Int) (salt k1 k2 : List UInt8), k1.length = 72 → k2.length = 72 →
          scenario.cipher cost salt k1 = scenario.cipher cost salt k2 → k1 = k2) ∧
        (true = false ∨ scenario.password.length ≤ 72)) ∧
      ∃ h, HashPassword scenario.cipher true [] scenario.password = .ok h ∧
        (∀ p2, CheckPasswordHash scenario.cipher p2 h = true ↔
          bcrypt.keyStream p2 = bcrypt.keyStream scenario.password) ∧
        (scenario.password.length ≤ 71 → (∀ b ∈ scenario.password, b ≠ 0) →
          ∀ p2, (∀ b ∈ p2, b ≠ 0) →
            (CheckPasswordHash scenario.cipher p2 h = true ↔ p2 = scenario.password)) ∧
        ∀ bytes p2, CheckPasswordHash scenario.cipher p2 (.malformed bytes) = false :=
  ⟨⟨fun _ _ _ _ _ _ h => h, Or.inr (by decide)⟩,
    CheckPasswordHash_iff_same_key_bytes scenario.cipher true [] scenario.password
      (fun _ _ _ _ _ _ h => h) (Or.inr (by decide))⟩

/-! ## The preflight middleware -/

theorem GetHeader_SetHeader_same (w : http.ResponseWriter) (key value : String) :
    (w.SetHeader key value).GetHeader key = value := by
  simp [http.ResponseWriter.SetHeader, http.ResponseWriter.GetHeader]

theorem find?_filter_other (l : List (String × String)) (key other : String)
    (h : other ≠ key) :
    (l.filter (fun kv => decide (kv.1 ≠ key))).find? (fun kv => decide (kv.1 = other))
      = l.find? (fun kv => decide (kv.1 = other)) := by
  induction l with
  | nil => rfl
  | cons kv rest ih =>
    by_cases h1 : kv.1 = key
    · have h2 : ¬ kv.1 = other := fun e => h (e.symm.trans h1)
      rw [List.filter_cons_of_neg (by simpa using h1), List.find?_cons_of_neg _ (by simpa using h2)]
      exact ih
    · rw [List.filter_cons_of_pos (by simpa using h1)]
      by_cases h2 : kv.1 = other
      · rw [List.find?_cons_of_pos _ (by simpa using h2),
          List.find?_cons_of_pos _ (by simpa using h2)]
      · rw [List.find?_cons_of_neg _ (by simpa using h2),
          List.find?_cons_of_neg _ (by simpa using h2)]
        exact ih

theorem GetHeader_SetHeader_other (w : http.ResponseWriter) (key value other : String)
    (h : other ≠ key) :
    (w.SetHeader key value).GetHeader other = w.GetHeader other := by
  have hk : ¬ key = other := fun e => h e.symm
  unfold http.ResponseWriter.SetHeader http.ResponseWriter.GetHeader
  simp only
  rw [List.find?_cons_of_neg _ (by simpa using hk), find?_filter_other _ _ _ h]

theorem GetHeader_WriteHeader (w : http.ResponseWriter) (code : Nat) (key : String) :
    (w.WriteHeader code).GetHeader key = w.GetHeader key := by
  unfold http.ResponseWriter.WriteHeader
  split <;> rfl

/-- What `SetPreflightHeaders` does for an OPTIONS request, whatever the configuration,
the wrapped handler and the writer: the two CORS headers carry the configured values,
the `Content-Type` header is what it was before the call, and on a writer whose header
is not yet written the status is 200. -/
theorem SetPreflightHeaders_options (config : server.CorsConfig) (h : http.Handler)
    (w : http.ResponseWriter) (header : List (String × String)) (body : String) :
    (server.SetPreflightHeaders config h w
        ⟨http.MethodOptions, header, body⟩).GetHeader "Access-Control-Allow-Origin"
        = config.AllowOrigin ∧
      (server.SetPreflightHeaders config h w
        ⟨http.MethodOptions, header, body⟩).GetHeader "Access-Control-Allow-Headers"
        = config.AllowHeaders ∧
      (server.SetPreflightHeaders config h w
        ⟨http.MethodOptions, header, body⟩).GetHeader "Content-Type"
        = w.GetHeader "Content-Type" ∧
      (server.SetPreflightHeaders config h { w with Status := none }
        ⟨http.MethodOptions, header, body⟩).Status = some http.StatusOK := by
  unfold server.SetPreflightHeaders
  simp only [if_true]
  refine ⟨?_, ?_, ?_, ?_⟩
  · rw [GetHeader_WriteHeader, GetHeader_SetHeader_other _ _ _ _ (by decide),
      GetHeader_SetHeader_same]
  · rw [GetHeader_WriteHeader, GetHeader_SetHeader_same]
  · rw [GetHeader_WriteHeader, GetHeader_SetHeader_other _ _ _ _ (by decide),
      GetHeader_SetHeader_other _ _ _ _ (by decide)]
  · rfl

/-- C11 (evaluation at the failing input). The handler that `SetPreflightHeaders`
produces from the configuration of its own comment, around the handler of
`TestPreflightHeaders`, serves an OPTIONS request on a fresh writer: the response has
status 200 and the two CORS headers and nothing else, so no `Content-Type` header,
where the claim and the comment on the function name `Content-Type:
application/json; charset=utf-8` among the headers it sets. A GET request leaves the
header unset in the same way. -/
theorem SetPreflightHeaders_sets_no_content_type :
    server.SetPreflightHeaders scenario.cors scenario.hello scenario.recorder
        ⟨"OPTIONS", [], ""⟩
        = ⟨[("Access-Control-Allow-Headers",
              "content-type, Content-Type, Origin, Authorization"),
            ("Access-Control-Allow-Origin", "*")],
          some 200, ""⟩ ∧
      (server.SetPreflightHeaders scenario.cors scenario.hello scenario.recorder
        ⟨"OPTIONS", [], ""⟩).GetHeader "Content-Type" = "" ∧
      (server.SetPreflightHeaders scenario.cors scenario.hello scenario.recorder
        ⟨"GET", [], ""⟩).GetHeader "Content-Type" = "" ∧
      (server.SetHeader "X-Api" "1" scenario.hello scenario.recorder
        ⟨"GET", [], ""⟩).GetHeader "Content-Type" = "application/json; charset=utf-8" := by
  decide
